import Mathlib

/-!
Verification of the intent-to-configuration compiler in
BIG_automatique/config_script.py.

The Python source is shallowly embedded below: the intent document is the
parsed JSON structure, IPv6 quantities are natural numbers with explicit
textual parsing/rendering matching the ipaddress module's behaviour,
dictionaries are association lists in insertion order, and `raise SystemExit`
is modelled by the `Except Err` monad.  Configuration lines are modelled by
the inductive type `Stmt`; `Stmt.render` reproduces the exact f-string each
constructor stands for, so the emitted text file is the rendering of the
statement list.
-/

/-! ## IPv6 textual forms

`renderIPv6` reproduces CPython's `ipaddress` compressed string form
(`_string_from_ip_int` / `_compress_hextets`): eight 16-bit hextets in
lowercase hex without leading zeros, the longest zero run (first on ties)
collapsed to `::` when its length exceeds one.  `parseIPv6Net` models
`ipaddress.IPv6Network(s)` with its default strict parsing (host bits must
be clear), returning the numeric network address and the prefix length. -/

/-- Python `str.split(sep)` for a one-character separator. -/
def splitOnChar (c : Char) : List Char → List (List Char)
  | [] => [[]]
  | x :: xs =>
    let r := splitOnChar c xs
    if x = c then [] :: r else (x :: r.headD []) :: r.tail

/-- The parts before and after the first `::` occurrence, if any. -/
def findSplit2 : List Char → Option (List Char × List Char)
  | [] => none
  | [_] => none
  | x :: y :: rest =>
    if x = ':' ∧ y = ':' then some ([], rest)
    else (findSplit2 (y :: rest)).map (fun p => (x :: p.1, p.2))

def myTrimL (cs : List Char) : List Char :=
  ((cs.dropWhile Char.isWhitespace).reverse.dropWhile Char.isWhitespace).reverse

def hexDigitChar (n : Nat) : Char :=
  if n < 10 then Char.ofNat (48 + n) else Char.ofNat (87 + n)

def toHexCore : Nat → Nat → List Char
  | 0, _ => []
  | fuel + 1, n =>
    if n < 16 then [hexDigitChar n]
    else toHexCore fuel (n / 16) ++ [hexDigitChar (n % 16)]

def toHex (n : Nat) : String := String.mk (toHexCore (n + 1) n)

def hextets (a : Nat) : List Nat :=
  (List.range 8).map (fun i => a / 2 ^ (16 * (7 - i)) % 65536)

def bestZeroRun (hs : List Nat) : Nat × Nat :=
  let f := fun (st : Nat × Nat × Nat × Nat) (p : Nat × Nat) =>
    let (bs, bl, cs, cl) := st
    let (idx, h) := p
    if h = 0 then
      let cs' := if cl = 0 then idx else cs
      let cl' := cl + 1
      if cl' > bl then (cs', cl', cs', cl') else (bs, bl, cs', cl')
    else (bs, bl, 0, 0)
  let r := hs.enum.foldl f (0, 0, 0, 0)
  (r.1, r.2.1)

def renderIPv6 (a : Nat) : String :=
  let hs := hextets a
  let br := bestZeroRun hs
  if br.2 > 1 then
    let lft := String.intercalate ":" ((hs.take br.1).map toHex)
    let rgt := String.intercalate ":" ((hs.drop (br.1 + br.2)).map toHex)
    lft ++ "::" ++ rgt
  else
    String.intercalate ":" (hs.map toHex)

def hexVal (c : Char) : Option Nat :=
  if 48 ≤ c.toNat ∧ c.toNat ≤ 57 then some (c.toNat - 48)
  else if 97 ≤ c.toNat ∧ c.toNat ≤ 102 then some (c.toNat - 87)
  else if 65 ≤ c.toNat ∧ c.toNat ≤ 70 then some (c.toNat - 55)
  else none

def parseGroupL (g : List Char) : Option Nat :=
  if g.length = 0 ∨ 4 < g.length then none
  else g.foldl (fun acc c => acc.bind (fun v => (hexVal c).map (fun d => v * 16 + d))) (some 0)

def parseGroupsL (cs : List Char) : Option (List Nat) :=
  if cs.isEmpty then some [] else (splitOnChar ':' cs).mapM parseGroupL

def combineGroups (gs : List Nat) : Nat :=
  gs.foldl (fun acc g => acc * 65536 + g) 0

def parseIPv6Addr (s : String) : Option Nat :=
  match findSplit2 s.data with
  | none =>
      (parseGroupsL s.data).bind (fun gs =>
        if gs.length = 8 then some (combineGroups gs) else none)
  | some (lft, rgt) =>
      (parseGroupsL lft).bind (fun gl =>
      (parseGroupsL rgt).bind (fun gr =>
        if gl.length + gr.length ≤ 7 then
          some (combineGroups (gl ++ List.replicate (8 - gl.length - gr.length) 0 ++ gr))
        else none))

def parseDec (cs : List Char) : Option Nat :=
  match cs with
  | [] => none
  | _ => cs.foldl (fun acc c =>
      acc.bind (fun v =>
        if 48 ≤ c.toNat ∧ c.toNat ≤ 57 then some (v * 10 + (c.toNat - 48)) else none))
      (some 0)

def parseIPv6Net (s : String) : Option (Nat × Nat) :=
  match splitOnChar '/' s.data with
  | [addr, plen] =>
      (parseIPv6Addr (String.mk addr)).bind (fun a =>
      (parseDec plen).bind (fun p =>
        if p ≤ 128 ∧ a % 2 ^ (128 - p) = 0 then some (a, p) else none))
  | _ => none

/-! ## The intent document

Parsed-JSON shape of the input consumed by config_script.py.  Optional JSON
keys become `Option` fields (the source reads them with `.get`); AS numbers
appear in the document as numbers and are modelled by `Nat`. -/

structure Endpoint where
  router : String
  iface : String
deriving DecidableEq

structure Link where
  name : String
  ltype : Option String
  subnet_v6 : Option String
  endpoints : List Endpoint
  asid : Option Nat
  relationship : Option String
  ospf_cost : Option Int
deriving DecidableEq

structure IGPData where
  itype : String
  process_id : Option Nat
  area : Option Nat
  process_name : Option String
deriving DecidableEq

structure ASData where
  loopback_pool : String
  routers : List String
  igp : IGPData
deriving DecidableEq

structure RouterData where
  asid : Nat
  router_id : String
deriving DecidableEq

structure BgpCfg where
  required : Bool
  ibgp_mode : Option String
deriving DecidableEq

structure Intent where
  ases : List (Nat × ASData)
  routers : List (String × RouterData)
  links : List Link
  bgp : Option BgpCfg
deriving DecidableEq

/-! ## Failure modes

Each constructor stands for one `raise`/crash site of the source:
`ensure` calls raising SystemExit, KeyError/IndexError on malformed
documents, and ValueError from the ipaddress module. -/

inductive Err where
  | badNetwork (s : String)
  | invalidPfxLen (who : String) (got : Nat)
  | emptyRouters (asn : Nat)
  | missingSubnet (lname : String)
  | endpointCount (lname : String)
  | dupIface (r i : String)
  | indexError (lname : String)
  | routerNotOnLink (r lname : String)
  | unsupportedIGP (t : String)
  | keyError (k : String)
deriving DecidableEq

/-! ## Dictionaries -/

abbrev Dict := List (String × String)
abbrev LDict := List ((String × String) × String)

/-- Python dict assignment `d[k] = v`: replace in place or append. -/
def dinsertS (d : Dict) (k v : String) : Dict :=
  match d with
  | [] => [(k, v)]
  | (k', v') :: rest => if k' = k then (k', v) :: rest else (k', v') :: dinsertS rest k v

/-- Python dict assignment for the (router, interface) table. -/
def dinsertL (d : LDict) (k : String × String) (v : String) : LDict :=
  match d with
  | [] => [(k, v)]
  | (k', v') :: rest => if k' = k then (k', v) :: rest else (k', v') :: dinsertL rest k v

/-- Python dict read `d[k]`, raising KeyError when absent. -/
def dget (d : Dict) (k : String) : Except Err String :=
  match d.lookup k with
  | some v => Except.ok v
  | none => Except.error (Err.keyError k)

/-- Python dict read on the (router, interface) table. -/
def lget (d : LDict) (k : String × String) : Except Err String :=
  match d.lookup k with
  | some v => Except.ok v
  | none => Except.error (Err.keyError (k.1 ++ ":" ++ k.2))

def getRouter (intent : Intent) (r : String) : Except Err RouterData :=
  match intent.routers.lookup r with
  | some d => Except.ok d
  | none => Except.error (Err.keyError r)

def getAS (intent : Intent) (asn : Nat) : Except Err ASData :=
  match intent.ases.lookup asn with
  | some d => Except.ok d
  | none => Except.error (Err.keyError (toString asn))

/-! ## Address allocation (config_script.py lines 33-70) -/

/-- Body of the per-AS loop of `allocate_loopbacks`. -/
def alloc_as_step (out : Dict) (a : Nat × ASData) : Except Err Dict :=
  match parseIPv6Net a.2.loopback_pool with
  | none => Except.error (Err.badNetwork a.2.loopback_pool)
  | some (base, plen) =>
    if plen ≠ 64 then Except.error (Err.invalidPfxLen (toString a.1) plen)
    else if a.2.routers.isEmpty then Except.error (Err.emptyRouters a.1)
    else Except.ok (a.2.routers.enum.foldl
      (fun o p => dinsertS o p.2 (renderIPv6 (base + (p.1 + 1)) ++ "/128")) out)

def allocate_loopbacks (intent : Intent) : Except Err Dict :=
  intent.ases.foldlM alloc_as_step []

/-- Body of the per-link loop of `allocate_link_ips`. -/
def alloc_link_step (out : LDict) (link : Link) : Except Err LDict :=
  match link.subnet_v6 with
  | none => Except.error (Err.missingSubnet link.name)
  | some subnet_str =>
    if subnet_str = "" then Except.error (Err.missingSubnet link.name)
    else match parseIPv6Net subnet_str with
    | none => Except.error (Err.badNetwork subnet_str)
    | some (base, plen) =>
      if plen ≠ 64 then Except.error (Err.invalidPfxLen link.name plen)
      else match link.endpoints with
      | [e0, e1] =>
        if (out.lookup (e0.router, e0.iface)).isSome then
          Except.error (Err.dupIface e0.router e0.iface)
        else if (out.lookup (e1.router, e1.iface)).isSome then
          Except.error (Err.dupIface e1.router e1.iface)
        else Except.ok (dinsertL (dinsertL out (e0.router, e0.iface) (renderIPv6 (base + 1) ++ "/64"))
          (e1.router, e1.iface) (renderIPv6 (base + 2) ++ "/64"))
      | _ => Except.error (Err.endpointCount link.name)

def allocate_link_ips (intent : Intent) : Except Err LDict :=
  intent.links.foldlM alloc_link_step []

/-! ## Adjacency (config_script.py lines 73-96) -/

/-- `adjacency(intent)[r]` (with `.get(r, [])`): incident links in document
order, one occurrence per matching endpoint. -/
def adjacency (intent : Intent) (r : String) : List Link :=
  intent.links.flatMap (fun l => (l.endpoints.filter (fun e => e.router = r)).map (fun _ => l))

def get_endpoint_for_router (link : Link) (rname : String) : Except Err Endpoint :=
  match link.endpoints with
  | [] => Except.error (Err.indexError link.name)
  | e0 :: rest =>
    if e0.router = rname then Except.ok e0
    else match rest with
    | [] => Except.error (Err.indexError link.name)
    | e1 :: _ =>
      if e1.router = rname then Except.ok e1
      else Except.error (Err.routerNotOnLink rname link.name)

def other_endpoint (link : Link) (rname : String) : Except Err Endpoint :=
  match link.endpoints with
  | [] => Except.error (Err.indexError link.name)
  | e0 :: rest =>
    match rest with
    | [] => Except.error (Err.indexError link.name)
    | e1 :: _ =>
      if e0.router = rname then Except.ok e1
      else if e1.router = rname then Except.ok e0
      else Except.error (Err.routerNotOnLink rname link.name)

/-! ## Configuration statements

One constructor per distinct emitted line form of config_script.py;
`Stmt.render` is the exact f-string the source appends for it. -/

inductive Stmt where
  | bang
  | hostname (r : String)
  | noIpDomainLookup
  | ipv6UnicastRouting
  | ifaceHeader (n : String)
  | noIpAddress
  | ipv6Enable
  | ipv6Address (a : String)
  | noShutdown
  | exitKw
  | ospfGlobal (pid : Nat)
  | routerIdLine (rid : String)
  | ripGlobal (proc : String)
  | ospfIface (pid area : Nat)
  | ospfCost (c : Int)
  | ripIface (proc : String)
  | bgpHeader (asn : Nat)
  | bgpRouterId (rid : String)
  | logNbr
  | noDefaultV4
  | neighborRemoteAs (p : String) (asn : Nat)
  | neighborUpdSrc (p : String)
  | afBang
  | addressFamily
  | neighborActivate (p : String)
  | neighborNextHopSelf (p : String)
  | neighborSendComm (p : String)
  | network (pfx : String)
  | exitAF
  | commList (n c : String)
  | plDeny
  | plPermit (seq : Nat) (pfx : String)
  | routeMapLine (n : String) (permit : Bool) (seq : Nat)
  | setComm (c : String)
  | setLocalPref (n : Nat)
  | matchPL (n : String)
  | matchComm (n : String)
  | nbrRMOut (p rm : String)
  | nbrRMIn (p rm : String)
deriving DecidableEq

def Stmt.render : Stmt → String
  | bang => "!"
  | hostname r => s!"hostname {r}"
  | noIpDomainLookup => "no ip domain-lookup"
  | ipv6UnicastRouting => "ipv6 unicast-routing"
  | ifaceHeader n => s!"interface {n}"
  | noIpAddress => " no ip address"
  | ipv6Enable => " ipv6 enable"
  | ipv6Address a => s!" ipv6 address {a}"
  | noShutdown => " no shutdown"
  | exitKw => "exit"
  | ospfGlobal pid => s!"ipv6 router ospf {pid}"
  | routerIdLine rid => s!" router-id {rid}"
  | ripGlobal proc => s!"ipv6 router rip {proc}"
  | ospfIface pid area => s!" ipv6 ospf {pid} area {area}"
  | ospfCost c => s!" ipv6 ospf cost {c}"
  | ripIface proc => s!" ipv6 rip {proc} enable"
  | bgpHeader asn => s!"router bgp {asn}"
  | bgpRouterId rid => s!" bgp router-id {rid}"
  | logNbr => " bgp log-neighbor-changes"
  | noDefaultV4 => " no bgp default ipv4-unicast"
  | neighborRemoteAs p asn => s!" neighbor {p} remote-as {asn}"
  | neighborUpdSrc p => s!" neighbor {p} update-source Loopback0"
  | afBang => " !"
  | addressFamily => " address-family ipv6 unicast"
  | neighborActivate p => s!"  neighbor {p} activate"
  | neighborNextHopSelf p => s!"  neighbor {p} next-hop-self"
  | neighborSendComm p => s!"  neighbor {p} send-community"
  | network pfx => s!"  network {pfx}"
  | exitAF => " exit-address-family"
  | commList n c => s!"ip community-list standard {n} permit {c}"
  | plDeny => "ipv6 prefix-list PL-SELF seq 5 deny ::/0"
  | plPermit seq pfx => s!"ipv6 prefix-list PL-SELF seq {seq} permit {pfx}"
  | routeMapLine n permit seq =>
      if permit then s!"route-map {n} permit {seq}" else s!"route-map {n} deny {seq}"
  | setComm c => s!" set community {c} additive"
  | setLocalPref n => s!" set local-preference {n}"
  | matchPL n => s!" match ipv6 address prefix-list {n}"
  | matchComm n => s!" match community {n}"
  | nbrRMOut p rm => s!"  neighbor {p} route-map {rm} out"
  | nbrRMIn p rm => s!"  neighbor {p} route-map {rm} in"

/-! ## IGP generation (config_script.py lines 103-149) -/

def igp_global (asdata : ASData) (router_id : String) : Except Err (List Stmt) :=
  let igp := asdata.igp
  if igp.itype = "none" then Except.ok [Stmt.bang]
  else if igp.itype = "ospfv3" then
    match igp.process_id with
    | none => Except.error (Err.keyError "process_id")
    | some pid => Except.ok [Stmt.ospfGlobal pid, Stmt.routerIdLine router_id, Stmt.exitKw, Stmt.bang]
  else if igp.itype = "ripng" then
    Except.ok [Stmt.ripGlobal (igp.process_name.getD "RIPNG"), Stmt.exitKw, Stmt.bang]
  else Except.error (Err.unsupportedIGP igp.itype)

def igp_iface_lines (asdata : ASData) (link : Link) : Except Err (List Stmt) :=
  let igp := asdata.igp
  if igp.itype = "none" then Except.ok []
  else if igp.itype = "ospfv3" then
    match igp.process_id with
    | none => Except.error (Err.keyError "process_id")
    | some pid =>
      match igp.area with
      | none => Except.error (Err.keyError "area")
      | some area =>
        Except.ok ([Stmt.ospfIface pid area] ++
          (match link.ospf_cost with
           | some c => [Stmt.ospfCost c]
           | none => []))
  else if igp.itype = "ripng" then
    Except.ok [Stmt.ripIface (igp.process_name.getD "RIPNG")]
  else Except.error (Err.unsupportedIGP igp.itype)

/-! ## BGP helpers (config_script.py lines 156-197) -/

def has_ebgp_aux (links : List Link) (rname : String) : Except Err Bool :=
  match links with
  | [] => Except.ok false
  | l :: ls =>
    if l.ltype ≠ some "inter_as" then has_ebgp_aux ls rname
    else match l.endpoints with
    | [] => Except.error (Err.indexError l.name)
    | e0 :: rest =>
      if e0.router = rname then Except.ok true
      else match rest with
      | [] => Except.error (Err.indexError l.name)
      | e1 :: _ => if e1.router = rname then Except.ok true else has_ebgp_aux ls rname

def has_ebgp_neighbor (intent : Intent) (rname : String) : Except Err Bool :=
  has_ebgp_aux intent.links rname

/-- The set of intra-AS /64 subnets of an AS; a Python set, represented by
the deduplicated list of collected subnets (its enumeration order in the
source is arbitrary and is a parameter of `build_bgp`). -/
def intra_as_prefixes_for_as (intent : Intent) (asn : Nat) : List String :=
  (intent.links.filterMap (fun l =>
    if l.ltype = some "intra_as" ∧ l.asid = some asn then
      match l.subnet_v6 with
      | some s => if s ≠ "" then some s else none
      | none => none
    else none)).dedup

def loopbacks_for_as (intent : Intent) (loopbacks : Dict) (asn : Nat) :
    Except Err (List String) :=
  match intent.ases.lookup asn with
  | none => Except.error (Err.keyError (toString asn))
  | some asdata => asdata.routers.mapM (dget loopbacks)

def get_interas_relationship_for_router (intent : Intent) (rname : String) :
    Except Err (List (String × String)) :=
  (adjacency intent rname).foldlM
    (fun rel link =>
      if link.ltype ≠ some "inter_as" then Except.ok rel
      else (other_endpoint link rname).map (fun other =>
        dinsertS rel other.router (link.relationship.getD "peer")))
    []

def ip_no_pfx (addr : String) : String :=
  String.mk (myTrimL ((splitOnChar '/' addr.data).headD []))

def lexLe : List Char → List Char → Bool
  | [], _ => true
  | _ :: _, [] => false
  | a :: as, b :: bs =>
    if a.toNat < b.toNat then true
    else if b.toNat < a.toNat then false
    else lexLe as bs

/-- Python string order: lexicographic by code point. -/
def strLe (a b : String) : Bool := lexLe a.data b.data

def insertLe (x : String) : List String → List String
  | [] => [x]
  | y :: ys => if strLe x y then x :: y :: ys else y :: insertLe x ys

/-- Python `sorted` on strings (insertion sort; any correct sorting
algorithm yields the same list, code-point order being total and
antisymmetric). -/
def pySorted : List String → List String
  | [] => []
  | x :: xs => insertLe x (pySorted xs)

/-! ## BGP generation (config_script.py lines 204-392)

`build_bgp` takes the two Python-set iteration orders as parameters
`intraEnum` (the set built by `intra_as_prefixes_for_as`, consumed via
`sorted` at line 281) and `selfEnum` (the `self_pfx` set, consumed via
`sorted` at line 321); theorems relate them to the canonical deduplicated
lists by permutation. -/

def ibgp_peers_of (intent : Intent) (rname : String) (loopbacks : Dict) (bgpcfg : BgpCfg)
    (asn : Nat) : Except Err (List String) :=
  if bgpcfg.ibgp_mode.getD "full_mesh" = "full_mesh" then do
    let asdata ← getAS intent asn
    (asdata.routers.filter (fun p => p ≠ rname)).mapM (fun p => (dget loopbacks p).map ip_no_pfx)
  else Except.ok []

def ebgp_step (intent : Intent) (rname : String) (link_ips : LDict)
    (acc : List (String × Nat × String)) (link : Link) :
    Except Err (List (String × Nat × String)) :=
  if link.ltype ≠ some "inter_as" then Except.ok acc
  else do
    let other ← other_endpoint link rname
    let prdata ← getRouter intent other.router
    let peer_ip_full ← lget link_ips (other.router, other.iface)
    let peer_ip := ip_no_pfx peer_ip_full
    if acc.any (fun t => t.1 = peer_ip) then pure acc
    else pure (acc ++ [(peer_ip, prdata.asid, other.router)])

def ebgp_peers_of (intent : Intent) (rname : String) (link_ips : LDict) :
    Except Err (List (String × Nat × String)) :=
  (adjacency intent rname).foldlM (ebgp_step intent rname link_ips) []

def inter_subnets_of (intent : Intent) (rname : String) : Except Err (List String) :=
  ((adjacency intent rname).filter (fun l => l.ltype = some "inter_as")).mapM
    (fun l => match l.subnet_v6 with
      | some s => Except.ok s
      | none => Except.error (Err.keyError "subnet_v6"))

def ibgpNbrLines (peers : List String) (asn : Nat) : List Stmt :=
  peers.flatMap (fun p => [Stmt.neighborRemoteAs p asn, Stmt.neighborUpdSrc p])

def ebgpNbrLines (peers : List (String × Nat × String)) : List Stmt :=
  peers.map (fun t => Stmt.neighborRemoteAs t.1 t.2.1)

def actILines (peers : List String) (border : Bool) : List Stmt :=
  peers.flatMap (fun p =>
    [Stmt.neighborActivate p] ++ (if border then [Stmt.neighborNextHopSelf p] else []) ++
    [Stmt.neighborSendComm p])

def actELines (peers : List (String × Nat × String)) : List Stmt :=
  peers.flatMap (fun t => [Stmt.neighborActivate t.1, Stmt.neighborSendComm t.1])

def plSelfLines (selfSorted : List String) : List Stmt :=
  Stmt.plDeny :: (selfSorted.enum.map (fun p => Stmt.plPermit (10 + 10 * p.1) p.2)) ++ [Stmt.bang]

def routeMapLines (asn : Nat) : List Stmt :=
  [Stmt.routeMapLine "RM-IN-CLIENT" true 10, Stmt.setComm (toString asn ++ ":100"),
   Stmt.setLocalPref 200, Stmt.bang,
   Stmt.routeMapLine "RM-IN-PEER" true 10, Stmt.setComm (toString asn ++ ":200"),
   Stmt.setLocalPref 150, Stmt.bang,
   Stmt.routeMapLine "RM-IN-PROV" true 10, Stmt.setComm (toString asn ++ ":300"),
   Stmt.setLocalPref 50, Stmt.bang,
   Stmt.routeMapLine "RM-OUT-PEERPROV" true 10, Stmt.matchPL "PL-SELF",
   Stmt.setComm (toString asn ++ ":50"), Stmt.bang,
   Stmt.routeMapLine "RM-OUT-PEERPROV" true 20, Stmt.matchComm "COMM-CLIENT", Stmt.bang,
   Stmt.routeMapLine "RM-OUT-PEERPROV" false 100, Stmt.bang,
   Stmt.routeMapLine "RM-OUT-CLIENT" true 10, Stmt.bang,
   Stmt.bgpHeader asn, Stmt.addressFamily]

def attachLines (relmap : List (String × String)) (peers : List (String × Nat × String)) :
    List Stmt :=
  peers.flatMap (fun t =>
    let rel := (relmap.lookup t.2.2).getD "peer"
    if rel = "client" then
      [Stmt.nbrRMOut t.1 "RM-OUT-CLIENT", Stmt.nbrRMIn t.1 "RM-IN-CLIENT"]
    else if rel = "provider" then
      [Stmt.nbrRMOut t.1 "RM-OUT-PEERPROV", Stmt.nbrRMIn t.1 "RM-IN-PROV"]
    else
      [Stmt.nbrRMOut t.1 "RM-OUT-PEERPROV", Stmt.nbrRMIn t.1 "RM-IN-PEER"])

def build_bgp (intent : Intent) (rname : String) (loopbacks : Dict) (link_ips : LDict)
    (intraEnum selfEnum : List String) : Except Err (List Stmt) :=
  match intent.bgp with
  | none => Except.ok []
  | some bgpcfg =>
    if bgpcfg.required = false then Except.ok []
    else do
      let rdata ← getRouter intent rname
      let ibgp_peers ← ibgp_peers_of intent rname loopbacks bgpcfg rdata.asid
      let ebgp_peers ← ebgp_peers_of intent rname link_ips
      let border ← has_ebgp_neighbor intent rname
      let ownLb ← dget loopbacks rname
      let netB ← inter_subnets_of intent rname
      let pre := [Stmt.bgpHeader rdata.asid, Stmt.bgpRouterId rdata.router_id,
                  Stmt.logNbr, Stmt.noDefaultV4] ++
                 ibgpNbrLines ibgp_peers rdata.asid ++ ebgpNbrLines ebgp_peers ++
                 [Stmt.afBang, Stmt.addressFamily] ++
                 actILines ibgp_peers border ++ actELines ebgp_peers ++
                 [Stmt.network ownLb] ++ netB.map Stmt.network
      if border then do
        let lbs ← loopbacks_for_as intent loopbacks rdata.asid
        let relmap ← get_interas_relationship_for_router intent rname
        pure (pre ++ (pySorted intraEnum).map Stmt.network ++ (pySorted lbs).map Stmt.network ++
              [Stmt.exitAF, Stmt.bang,
               Stmt.commList "COMM-SELF" (toString rdata.asid ++ ":50"),
               Stmt.commList "COMM-CLIENT" (toString rdata.asid ++ ":100"), Stmt.bang] ++
              plSelfLines (pySorted selfEnum) ++
              routeMapLines rdata.asid ++ attachLines relmap ebgp_peers ++
              [Stmt.exitAF, Stmt.exitKw, Stmt.bang])
      else
        pure (pre ++ [Stmt.exitAF, Stmt.exitKw, Stmt.bang])

/-! ## Per-router assembly (config_script.py lines 399-450) and the driver -/

def loopbackBlock (ownLb : String) (igpL : List Stmt) : List Stmt :=
  [Stmt.ifaceHeader "Loopback0", Stmt.noIpAddress, Stmt.ipv6Address ownLb] ++ igpL ++
  [Stmt.noShutdown, Stmt.exitKw, Stmt.bang]

/-- The literal `{"type": "intra_as"}` dict passed for the loopback. -/
def dummyIntraLink : Link :=
  { name := "", ltype := some "intra_as", subnet_v6 := none, endpoints := [],
    asid := none, relationship := none, ospf_cost := none }

def physBlock (ifname ip : String) (igpL : List Stmt) : List Stmt :=
  [Stmt.ifaceHeader ifname, Stmt.noIpAddress, Stmt.ipv6Enable, Stmt.ipv6Address ip] ++ igpL ++
  [Stmt.noShutdown, Stmt.exitKw, Stmt.bang]

def phys_blocks_of (intent : Intent) (rname : String) (link_ips : LDict) (asdata : ASData) :
    Except Err (List (List Stmt)) :=
  (adjacency intent rname).mapM (fun link => do
    let my_ep ← get_endpoint_for_router link rname
    let ip ← lget link_ips (rname, my_ep.iface)
    let igpL ← if link.ltype = some "intra_as" then igp_iface_lines asdata link
               else pure []
    pure (physBlock my_ep.iface ip igpL))

def build_router_config (intent : Intent) (rname : String) (loopbacks : Dict) (link_ips : LDict)
    (intraEnum selfEnum : List String) : Except Err (List Stmt) := do
  let rdata ← getRouter intent rname
  let asdata ← getAS intent rdata.asid
  let ownLb ← dget loopbacks rname
  let lbIgp ← igp_iface_lines asdata dummyIntraLink
  let blocks ← phys_blocks_of intent rname link_ips asdata
  let igpG ← igp_global asdata rdata.router_id
  let bgpL ← build_bgp intent rname loopbacks link_ips intraEnum selfEnum
  pure ([Stmt.bang, Stmt.hostname rname, Stmt.bang, Stmt.noIpDomainLookup,
         Stmt.ipv6UnicastRouting, Stmt.bang] ++
        loopbackBlock ownLb lbIgp ++ blocks.flatten ++ igpG ++ bgpL ++ [Stmt.bang])

def config_text_of (lines : List Stmt) : String :=
  String.intercalate "\n" (lines.map Stmt.render) ++ "\n"

/-- Canonical contents of the `self_pfx` set: loopbacks of the AS united
with its intra-AS subnets, deduplicated. -/
def self_pfx_canon (intent : Intent) (loopbacks : Dict) (asn : Nat) :
    Except Err (List String) :=
  (loopbacks_for_as intent loopbacks asn).map (fun lbs =>
    (lbs ++ intra_as_prefixes_for_as intent asn).dedup)

/-- Canonical choice for the two set iteration orders used when actually
running the compiler. -/
def bgpEnums (intent : Intent) (rname : String) (loopbacks : Dict) :
    List String × List String :=
  match intent.routers.lookup rname with
  | none => ([], [])
  | some rdata =>
    let e1 := intra_as_prefixes_for_as intent rdata.asid
    let e2 := match has_ebgp_neighbor intent rname,
                    self_pfx_canon intent loopbacks rdata.asid with
      | Except.ok true, Except.ok c => c
      | _, _ => []
    (e1, e2)

/-- The per-router loop of `main`: each successfully built configuration is
written to disk before the next router is processed, and a failure aborts
the loop, keeping the files already written. -/
def run_routers (intent : Intent) (loopbacks : Dict) (link_ips : LDict) :
    List String → List (String × String) × Option Err
  | [] => ([], none)
  | r :: rs =>
    let es := bgpEnums intent r loopbacks
    match build_router_config intent r loopbacks link_ips es.1 es.2 with
    | Except.error e => ([], some e)
    | Except.ok lines =>
      let rest := run_routers intent loopbacks link_ips rs
      ((r, config_text_of lines) :: rest.1, rest.2)

/-- `main`: returns the router files written (name, text) and the error that
aborted the run, if any. -/
def main_run (intent : Intent) : List (String × String) × Option Err :=
  match allocate_loopbacks intent with
  | Except.error e => ([], some e)
  | Except.ok lb =>
    match allocate_link_ips intent with
    | Except.error e => ([], some e)
    | Except.ok li => run_routers intent lb li (intent.routers.map (fun p => p.1))

/-! ## A concrete intent document (the scenario of the specification) -/

def exAS100 : ASData :=
  { loopback_pool := "2001:100::/64", routers := ["R1", "R2"],
    igp := { itype := "none", process_id := none, area := none, process_name := none } }

def exAS200 : ASData :=
  { loopback_pool := "2001:200::/64", routers := ["R3"],
    igp := { itype := "none", process_id := none, area := none, process_name := none } }

def exL1 : Link :=
  { name := "L1", ltype := some "intra_as", subnet_v6 := some "2001:100:1::/64",
    endpoints := [⟨"R1", "f0"⟩, ⟨"R2", "f0"⟩], asid := some 100,
    relationship := none, ospf_cost := none }

def exL2 : Link :=
  { name := "L2", ltype := some "inter_as", subnet_v6 := some "2001:900::/64",
    endpoints := [⟨"R2", "f1"⟩, ⟨"R3", "f0"⟩], asid := none,
    relationship := some "provider", ospf_cost := none }

def exIntent : Intent :=
  { ases := [(100, exAS100), (200, exAS200)],
    routers := [("R1", ⟨100, "1.1.1.1"⟩), ("R2", ⟨100, "2.2.2.2"⟩), ("R3", ⟨200, "3.3.3.3"⟩)],
    links := [exL1, exL2],
    bgp := some { required := true, ibgp_mode := some "full_mesh" } }

def exLb : Dict :=
  [("R1", "2001:100::1/128"), ("R2", "2001:100::2/128"), ("R3", "2001:200::1/128")]

def exLi : LDict :=
  [(("R1", "f0"), "2001:100:1::1/64"), (("R2", "f0"), "2001:100:1::2/64"),
   (("R2", "f1"), "2001:900::1/64"), (("R3", "f0"), "2001:900::2/64")]

/-! ## Classifying emitted statements -/

def isPLLine : Stmt → Bool
  | Stmt.plDeny => true
  | Stmt.plPermit _ _ => true
  | _ => false

def isNetworkLine : Stmt → Bool
  | Stmt.network _ => true
  | _ => false

def isAttachLine : Stmt → Bool
  | Stmt.nbrRMOut _ _ => true
  | Stmt.nbrRMIn _ _ => true
  | _ => false

def isNHSLine : Stmt → Bool
  | Stmt.neighborNextHopSelf _ => true
  | _ => false

/-- Outbound route-map choice as the specification states it: a pure
function of the relationship. -/
def rmOutName (rel : String) : String :=
  if rel = "client" then "RM-OUT-CLIENT" else "RM-OUT-PEERPROV"

/-- Inbound route-map choice as the specification states it. -/
def rmInName (rel : String) : String :=
  if rel = "client" then "RM-IN-CLIENT"
  else if rel = "provider" then "RM-IN-PROV"
  else "RM-IN-PEER"


/-! ## Interface-block scanner -/

def isIfaceOpen : Stmt → Bool
  | Stmt.ifaceHeader _ => true
  | _ => false

def isExitLine : Stmt → Bool
  | Stmt.exitKw => true
  | _ => false

def isNoShutdown : Stmt → Bool
  | Stmt.noShutdown => true
  | _ => false

/-- One scanner step: outside any interface block (state `none`) an
`interface` header opens a block; inside a block (state `some seen`) an
`exit` closes it, conjoining into the verdict whether a `no shutdown`
line was seen. -/
def scanStep : Option Bool × Bool → Stmt → Option Bool × Bool
  | (none, ok), s => if isIfaceOpen s then (some false, ok) else (none, ok)
  | (some seen, ok), s =>
    if isExitLine s then (none, ok && seen)
    else (some (seen || isNoShutdown s), ok)

/-- Every interface block of the line list is closed and contains an
explicit `no shutdown` before its `exit`. -/
def scanOk (l : List Stmt) : Bool :=
  match l.foldl scanStep (none, true) with
  | (none, ok) => ok
  | (some _, _) => false

/-! ## Further concrete documents -/

def igpNone : IGPData := ⟨"none", none, none, none⟩

/-- An intent whose second AS declares an unsupported IGP type. Address
allocation accepts it, so the failure strikes only while generating R2's
configuration — after R1's file is already written. -/
def c2doc : Intent :=
  ⟨[(1, ⟨"2001:1::/64", ["R1"], igpNone⟩), (2, ⟨"2001:2::/64", ["R2"], ⟨"eigrp", none, none, none⟩⟩)],
   [("R1", ⟨1, "1.1.1.1"⟩), ("R2", ⟨2, "2.2.2.2"⟩)], [], none⟩

/-- An intent whose only AS declares a /60 loopback pool. -/
def badPoolDoc : Intent :=
  ⟨[(1, ⟨"2001:1::/60", ["R1"], igpNone⟩)], [("R1", ⟨1, "1.1.1.1"⟩)], [], none⟩

/-- An intent whose only AS declares no routers. -/
def emptyASDoc : Intent :=
  ⟨[(1, ⟨"2001:1::/64", [], igpNone⟩)], [], [], none⟩

/-- A document with a single link whose two endpoints are the identical
(router, interface) pair. -/
def c7doc : Intent :=
  ⟨[], [], [⟨"L", some "intra_as", some "2001:12::/64",
    [⟨"R1", "f0"⟩, ⟨"R1", "f0"⟩], some 1, none, none⟩], none⟩

/-- Two links claiming the same (router, interface) pair. -/
def dupIfaceDoc : Intent :=
  ⟨[], [],
   [⟨"LA", some "intra_as", some "2001:a::/64", [⟨"R1", "f0"⟩, ⟨"R2", "f0"⟩], some 1, none, none⟩,
    ⟨"LB", some "intra_as", some "2001:b::/64", [⟨"R1", "f0"⟩, ⟨"R3", "f1"⟩], some 1, none, none⟩],
   none⟩

/-- A link declaring only one endpoint. -/
def oneEndpointDoc : Intent :=
  ⟨[], [], [⟨"L1", some "intra_as", some "2001:c::/64", [⟨"R1", "f0"⟩], some 1, none, none⟩], none⟩

/-- A link whose subnet is a /60. -/
def badSubnetDoc : Intent :=
  ⟨[], [], [⟨"L1", some "intra_as", some "2001:d::/60",
    [⟨"R1", "f0"⟩, ⟨"R2", "f0"⟩], some 1, none, none⟩], none⟩

/-! ## Basic lemmas about the embedding -/

theorem exBindOk {α β : Type} (a : α) (f : α → Except Err β) :
    (Except.ok a >>= f : Except Err β) = f a := rfl

theorem exBindErr {α β : Type} (e : Err) (f : α → Except Err β) :
    (Except.error e >>= f : Except Err β) = Except.error e := rfl

theorem exMapOk {α β : Type} (a : α) (f : α → β) :
    (Except.ok a : Except Err α).map f = Except.ok (f a) := rfl

theorem exPure {α : Type} (a : α) : (pure a : Except Err α) = Except.ok a := rfl

theorem charToNat_inj {a b : Char} (h : a.toNat = b.toNat) : a = b := by
  have h2 := congrArg Char.ofNat h
  rwa [Char.ofNat_toNat, Char.ofNat_toNat] at h2

theorem lexLe_cons_iff {x y : Char} {xs ys : List Char} :
    lexLe (x :: xs) (y :: ys) = true ↔
      x.toNat < y.toNat ∨ (x.toNat = y.toNat ∧ lexLe xs ys = true) := by
  by_cases h1 : x.toNat < y.toNat
  · simp [lexLe, h1]
  · by_cases h2 : y.toNat < x.toNat
    · simp only [lexLe, if_neg h1, if_pos h2]
      constructor
      · intro h; exact absurd h (by simp)
      · intro h; omega
    · have he : x.toNat = y.toNat := by omega
      simp [lexLe, h1, h2, he]

theorem lexLe_total : ∀ a b : List Char, (lexLe a b || lexLe b a) = true := by
  intro a
  induction a with
  | nil => intro b; simp [lexLe]
  | cons x xs ih =>
    intro b
    cases b with
    | nil => simp [lexLe]
    | cons y ys =>
      by_cases h1 : x.toNat < y.toNat
      · simp [lexLe, h1]
      · by_cases h2 : y.toNat < x.toNat
        · simp [lexLe, h1, h2]
        · have he : ¬y.toNat < x.toNat := h2
          simpa [lexLe, h1, h2, he] using ih ys

theorem lexLe_trans : ∀ a b c : List Char,
    lexLe a b = true → lexLe b c = true → lexLe a c = true := by
  intro a
  induction a with
  | nil => intro b c _ _; simp [lexLe]
  | cons x xs ih =>
    intro b c h1 h2
    cases b with
    | nil => simp [lexLe] at h1
    | cons y ys =>
      cases c with
      | nil => simp [lexLe] at h2
      | cons z zs =>
        rw [lexLe_cons_iff] at h1 h2 ⊢
        rcases h1 with h1 | ⟨h1e, h1r⟩
        · rcases h2 with h2 | ⟨h2e, _⟩
          · exact Or.inl (by omega)
          · exact Or.inl (by omega)
        · rcases h2 with h2 | ⟨h2e, h2r⟩
          · exact Or.inl (by omega)
          · exact Or.inr ⟨by omega, ih ys zs h1r h2r⟩

theorem lexLe_antisymm : ∀ {a b : List Char},
    lexLe a b = true → lexLe b a = true → a = b := by
  intro a
  induction a with
  | nil =>
    intro b _ h2
    cases b with
    | nil => rfl
    | cons y ys => simp [lexLe] at h2
  | cons x xs ih =>
    intro b h1 h2
    cases b with
    | nil => simp [lexLe] at h1
    | cons y ys =>
      rw [lexLe_cons_iff] at h1 h2
      rcases h1 with h1 | ⟨h1e, h1r⟩
      · rcases h2 with h2 | ⟨h2e, _⟩
        · omega
        · omega
      · rcases h2 with h2 | ⟨h2e, h2r⟩
        · omega
        · rw [charToNat_inj h1e, ih h1r h2r]

theorem strLe_trans : ∀ a b c : String, strLe a b = true → strLe b c = true → strLe a c = true :=
  fun a b c h1 h2 => lexLe_trans a.data b.data c.data h1 h2

theorem strLe_total : ∀ a b : String, (strLe a b || strLe b a) = true :=
  fun a b => lexLe_total a.data b.data

theorem strLe_antisymm {a b : String} (h1 : strLe a b = true) (h2 : strLe b a = true) : a = b :=
  String.ext (lexLe_antisymm h1 h2)

theorem insertLe_perm (x : String) (l : List String) : List.Perm (insertLe x l) (x :: l) := by
  induction l with
  | nil => exact List.Perm.refl _
  | cons y ys ih =>
    by_cases h : strLe x y = true
    · simp only [insertLe, if_pos h]
      exact List.Perm.refl _
    · simp only [insertLe, if_neg h]
      exact (ih.cons y).trans (List.Perm.swap x y ys)

theorem pySorted_perm (l : List String) : List.Perm (pySorted l) l := by
  induction l with
  | nil => exact List.Perm.refl _
  | cons x xs ih => exact (insertLe_perm x (pySorted xs)).trans (ih.cons x)

theorem mem_insertLe {x z : String} {l : List String} (h : z ∈ insertLe x l) :
    z = x ∨ z ∈ l := by
  have h2 := (insertLe_perm x l).mem_iff.mp h
  simpa using h2

theorem sorted_insertLe (x : String) : ∀ l : List String,
    List.Pairwise (fun a b => strLe a b = true) l →
    List.Pairwise (fun a b => strLe a b = true) (insertLe x l) := by
  intro l
  induction l with
  | nil => intro _; simp [insertLe]
  | cons y ys ih =>
    intro hs
    rw [List.pairwise_cons] at hs
    obtain ⟨hy, hys⟩ := hs
    by_cases h : strLe x y = true
    · simp only [insertLe, if_pos h]
      rw [List.pairwise_cons]
      refine ⟨?_, ?_⟩
      · intro b hb
        rcases List.mem_cons.mp hb with rfl | hb
        · exact h
        · exact strLe_trans x y b h (hy b hb)
      · rw [List.pairwise_cons]; exact ⟨hy, hys⟩
    · have hyx : strLe y x = true := by
        rcases (Bool.or_eq_true _ _).mp (strLe_total x y) with h1 | h2
        · exact absurd h1 h
        · exact h2
      simp only [insertLe, if_neg h]
      rw [List.pairwise_cons]
      refine ⟨?_, ih hys⟩
      intro b hb
      rcases mem_insertLe hb with rfl | hb
      · exact hyx
      · exact hy b hb

theorem pySorted_sorted (l : List String) :
    List.Pairwise (fun a b => strLe a b = true) (pySorted l) := by
  induction l with
  | nil => simp [pySorted]
  | cons x xs ih => exact sorted_insertLe x (pySorted xs) ih

/-- Python's `sorted` depends only on the multiset being sorted: any two
enumeration orders of the same set sort identically. -/
theorem pySorted_eq_of_perm {l l' : List String} (h : List.Perm l l') :
    pySorted l = pySorted l' := by
  haveI : IsAntisymm String (fun a b => strLe a b = true) :=
    ⟨fun a b h1 h2 => strLe_antisymm h1 h2⟩
  exact List.eq_of_perm_of_sorted
    ((pySorted_perm l).trans (h.trans (pySorted_perm l').symm))
    (pySorted_sorted l) (pySorted_sorted l')

theorem build_bgp_enum_invariant (intent : Intent) (rname : String) (lb : Dict) (li : LDict)
    {e1 e1' e2 e2' : List String} (h1 : List.Perm e1 e1') (h2 : List.Perm e2 e2') :
    build_bgp intent rname lb li e1 e2 = build_bgp intent rname lb li e1' e2' := by
  unfold build_bgp
  rw [pySorted_eq_of_perm h1, pySorted_eq_of_perm h2]

theorem build_router_config_enum_invariant (intent : Intent) (rname : String) (lb : Dict)
    (li : LDict) {e1 e1' e2 e2' : List String} (h1 : List.Perm e1 e1') (h2 : List.Perm e2 e2') :
    build_router_config intent rname lb li e1 e2 = build_router_config intent rname lb li e1' e2' := by
  unfold build_router_config
  rw [build_bgp_enum_invariant intent rname lb li h1 h2]
theorem build_bgp_ok_border (intent : Intent) (rname : String) (lb : Dict) (li : LDict)
    (e1 e2 : List String) (bgpcfg : BgpCfg) (rdata : RouterData)
    (ibgp : List String) (ebgp : List (String × Nat × String))
    (ownLb : String) (netB : List String) (lbs : List String) (relmap : List (String × String))
    (hb : intent.bgp = some bgpcfg) (hreq : bgpcfg.required = true)
    (hr : getRouter intent rname = Except.ok rdata)
    (hi : ibgp_peers_of intent rname lb bgpcfg rdata.asid = Except.ok ibgp)
    (he : ebgp_peers_of intent rname li = Except.ok ebgp)
    (hbo : has_ebgp_neighbor intent rname = Except.ok true)
    (hl : dget lb rname = Except.ok ownLb)
    (hn : inter_subnets_of intent rname = Except.ok netB)
    (hlbs : loopbacks_for_as intent lb rdata.asid = Except.ok lbs)
    (hrel : get_interas_relationship_for_router intent rname = Except.ok relmap) :
    build_bgp intent rname lb li e1 e2 = Except.ok (
      [Stmt.bgpHeader rdata.asid, Stmt.bgpRouterId rdata.router_id, Stmt.logNbr, Stmt.noDefaultV4] ++
      ibgpNbrLines ibgp rdata.asid ++ ebgpNbrLines ebgp ++
      [Stmt.afBang, Stmt.addressFamily] ++ actILines ibgp true ++ actELines ebgp ++
      [Stmt.network ownLb] ++ netB.map Stmt.network ++
      (pySorted e1).map Stmt.network ++ (pySorted lbs).map Stmt.network ++
      [Stmt.exitAF, Stmt.bang,
       Stmt.commList "COMM-SELF" (toString rdata.asid ++ ":50"),
       Stmt.commList "COMM-CLIENT" (toString rdata.asid ++ ":100"), Stmt.bang] ++
      plSelfLines (pySorted e2) ++ routeMapLines rdata.asid ++ attachLines relmap ebgp ++
      [Stmt.exitAF, Stmt.exitKw, Stmt.bang]) := by
  unfold build_bgp
  rw [hb]
  simp only [hreq, hr, hi, he, hbo, hl, hn, hlbs, hrel, exBindOk, exPure,
    Bool.true_eq_false, if_false, if_true, ite_false, ite_true, List.append_assoc]

theorem build_bgp_ok_nonborder (intent : Intent) (rname : String) (lb : Dict) (li : LDict)
    (e1 e2 : List String) (bgpcfg : BgpCfg) (rdata : RouterData)
    (ibgp : List String) (ebgp : List (String × Nat × String))
    (ownLb : String) (netB : List String)
    (hb : intent.bgp = some bgpcfg) (hreq : bgpcfg.required = true)
    (hr : getRouter intent rname = Except.ok rdata)
    (hi : ibgp_peers_of intent rname lb bgpcfg rdata.asid = Except.ok ibgp)
    (he : ebgp_peers_of intent rname li = Except.ok ebgp)
    (hbo : has_ebgp_neighbor intent rname = Except.ok false)
    (hl : dget lb rname = Except.ok ownLb)
    (hn : inter_subnets_of intent rname = Except.ok netB) :
    build_bgp intent rname lb li e1 e2 = Except.ok (
      [Stmt.bgpHeader rdata.asid, Stmt.bgpRouterId rdata.router_id, Stmt.logNbr, Stmt.noDefaultV4] ++
      ibgpNbrLines ibgp rdata.asid ++ ebgpNbrLines ebgp ++
      [Stmt.afBang, Stmt.addressFamily] ++ actILines ibgp false ++ actELines ebgp ++
      [Stmt.network ownLb] ++ netB.map Stmt.network ++
      [Stmt.exitAF, Stmt.exitKw, Stmt.bang]) := by
  unfold build_bgp
  rw [hb]
  simp only [hreq, hr, hi, he, hbo, hl, hn, exBindOk, exPure,
    Bool.true_eq_false, if_false, if_true, ite_false, ite_true, Bool.false_eq_true,
    List.append_assoc]

theorem build_router_config_ok (intent : Intent) (rname : String) (lb : Dict) (li : LDict)
    (e1 e2 : List String) (rdata : RouterData) (asdata : ASData) (ownLb : String)
    (lbIgp : List Stmt) (blocks : List (List Stmt)) (igpG bgpL : List Stmt)
    (hr : getRouter intent rname = Except.ok rdata)
    (ha : getAS intent rdata.asid = Except.ok asdata)
    (hl : dget lb rname = Except.ok ownLb)
    (hig : igp_iface_lines asdata dummyIntraLink = Except.ok lbIgp)
    (hpb : phys_blocks_of intent rname li asdata = Except.ok blocks)
    (hgg : igp_global asdata rdata.router_id = Except.ok igpG)
    (hbg : build_bgp intent rname lb li e1 e2 = Except.ok bgpL) :
    build_router_config intent rname lb li e1 e2 = Except.ok (
      [Stmt.bang, Stmt.hostname rname, Stmt.bang, Stmt.noIpDomainLookup,
       Stmt.ipv6UnicastRouting, Stmt.bang] ++
      loopbackBlock ownLb lbIgp ++ blocks.flatten ++ igpG ++ bgpL ++ [Stmt.bang]) := by
  unfold build_router_config
  simp only [hr, ha, hl, hig, hpb, hgg, hbg, exBindOk, exPure, List.append_assoc]

theorem filter_flatMap_nil {α : Type} (p : Stmt → Bool) (l : List α) (f : α → List Stmt)
    (h : ∀ a, (f a).filter p = []) : (l.flatMap f).filter p = [] := by
  induction l with
  | nil => rfl
  | cons x xs ih => simp [List.flatMap_cons, List.filter_append, h, ih]

theorem filter_map_stmt {α : Type} (p : Stmt → Bool) (l : List α) (f : α → Stmt) :
    (l.map f).filter p = (l.filter (fun a => p (f a))).map f := by
  induction l with
  | nil => rfl
  | cons x xs ih => by_cases h : p (f x) <;> simp [List.filter_cons, h, ih]

theorem filter_map_nil {α : Type} (p : Stmt → Bool) (l : List α) (f : α → Stmt)
    (h : ∀ a, p (f a) = false) : (l.map f).filter p = [] := by
  rw [filter_map_stmt]; simp [h]

theorem filter_map_all {α : Type} (p : Stmt → Bool) (l : List α) (f : α → Stmt)
    (h : ∀ a, p (f a) = true) : (l.map f).filter p = l.map f := by
  rw [filter_map_stmt]; simp [h]

theorem ibgpNbr_filter_nil {p : Stmt → Bool} (peers : List String) (asn : Nat)
    (h : ∀ x, p (Stmt.neighborRemoteAs x asn) = false ∧ p (Stmt.neighborUpdSrc x) = false) :
    (ibgpNbrLines peers asn).filter p = [] :=
  filter_flatMap_nil p peers _ (fun a => by simp [List.filter_cons, (h a).1, (h a).2])

theorem ebgpNbr_filter_nil {p : Stmt → Bool} (peers : List (String × Nat × String))
    (h : ∀ x a, p (Stmt.neighborRemoteAs x a) = false) :
    (ebgpNbrLines peers).filter p = [] :=
  filter_map_nil p peers _ (fun a => h a.1 a.2.1)

theorem actI_filter_nil {p : Stmt → Bool} (peers : List String) (border : Bool)
    (h : ∀ x, p (Stmt.neighborActivate x) = false ∧ p (Stmt.neighborNextHopSelf x) = false ∧
      p (Stmt.neighborSendComm x) = false) :
    (actILines peers border).filter p = [] := by
  apply filter_flatMap_nil
  intro a
  cases border <;>
    simp [List.filter_append, List.filter_cons, (h a).1, (h a).2.1, (h a).2.2]

theorem actE_filter_nil {p : Stmt → Bool} (peers : List (String × Nat × String))
    (h : ∀ x, p (Stmt.neighborActivate x) = false ∧ p (Stmt.neighborSendComm x) = false) :
    (actELines peers).filter p = [] :=
  filter_flatMap_nil p peers _ (fun a => by simp [List.filter_cons, (h a.1).1, (h a.1).2])

theorem attach_filter_nil {p : Stmt → Bool} (relmap : List (String × String))
    (peers : List (String × Nat × String))
    (h : ∀ x y, p (Stmt.nbrRMOut x y) = false ∧ p (Stmt.nbrRMIn x y) = false) :
    (attachLines relmap peers).filter p = [] := by
  apply filter_flatMap_nil
  intro a
  by_cases h1 : (relmap.lookup a.2.2).getD "peer" = "client"
  · simp [attachLines, h1, List.filter_cons, (h a.1 "RM-OUT-CLIENT").1, (h a.1 "RM-IN-CLIENT").2]
  · by_cases h2 : (relmap.lookup a.2.2).getD "peer" = "provider"
    · simp [attachLines, h1, h2, List.filter_cons, (h a.1 "RM-OUT-PEERPROV").1,
        (h a.1 "RM-IN-PROV").2]
    · simp [attachLines, h1, h2, List.filter_cons, (h a.1 "RM-OUT-PEERPROV").1,
        (h a.1 "RM-IN-PEER").2]

theorem plSelf_filter (xs : List String) :
    (plSelfLines xs).filter isPLLine =
      Stmt.plDeny :: xs.enum.map (fun p => Stmt.plPermit (10 + 10 * p.1) p.2) := by
  show (Stmt.plDeny :: ((xs.enum.map _) ++ [Stmt.bang])).filter isPLLine = _
  rw [List.filter_cons_of_pos (by rfl), List.filter_append,
    filter_map_all _ _ _ (fun a => rfl)]
  simp [isPLLine]

/-- C1: on every border router (with the BGP stage enabled and all lookups
succeeding), the emitted PL-SELF prefix-list is one baseline deny entry for
::/0 at sequence number 5 (below 10) followed by one permit entry per SELF
prefix — the loopbacks of the AS united with its intra-AS /64 subnets —
sorted ascending in code-point order, with sequence numbers 10, 20, 30, ... -/
theorem c1_pl_self_exact (intent : Intent) (rname : String) (lb : Dict) (li : LDict)
    (e1 e2 : List String) (bgpcfg : BgpCfg) (rdata : RouterData)
    (ibgp : List String) (ebgp : List (String × Nat × String))
    (ownLb : String) (netB : List String) (lbs : List String) (relmap : List (String × String))
    (hb : intent.bgp = some bgpcfg) (hreq : bgpcfg.required = true)
    (hr : getRouter intent rname = Except.ok rdata)
    (hi : ibgp_peers_of intent rname lb bgpcfg rdata.asid = Except.ok ibgp)
    (he : ebgp_peers_of intent rname li = Except.ok ebgp)
    (hbo : has_ebgp_neighbor intent rname = Except.ok true)
    (hl : dget lb rname = Except.ok ownLb)
    (hn : inter_subnets_of intent rname = Except.ok netB)
    (hlbs : loopbacks_for_as intent lb rdata.asid = Except.ok lbs)
    (hrel : get_interas_relationship_for_router intent rname = Except.ok relmap)
    (henum : List.Perm e2 ((lbs ++ intra_as_prefixes_for_as intent rdata.asid).dedup)) :
    ∃ lines, build_bgp intent rname lb li e1 e2 = Except.ok lines ∧
      lines.filter isPLLine =
        Stmt.plDeny ::
          (pySorted e2).enum.map (fun p => Stmt.plPermit (10 + 10 * p.1) p.2) ∧
      List.Pairwise (fun a b => strLe a b = true) (pySorted e2) ∧
      (∀ s, s ∈ pySorted e2 ↔ (s ∈ lbs ∨ s ∈ intra_as_prefixes_for_as intent rdata.asid)) ∧
      (pySorted e2).Nodup := by
  refine ⟨_, build_bgp_ok_border intent rname lb li e1 e2 bgpcfg rdata ibgp ebgp ownLb netB lbs
    relmap hb hreq hr hi he hbo hl hn hlbs hrel, ?_, ?_, ?_, ?_⟩
  · simp only [List.filter_append]
    rw [ibgpNbr_filter_nil _ _ (fun x => ⟨rfl, rfl⟩),
      ebgpNbr_filter_nil _ (fun x a => rfl),
      actI_filter_nil _ _ (fun x => ⟨rfl, rfl, rfl⟩),
      actE_filter_nil _ (fun x => ⟨rfl, rfl⟩),
      filter_map_nil _ _ _ (fun a => rfl),
      filter_map_nil _ _ _ (fun a => rfl),
      filter_map_nil _ _ _ (fun a => rfl),
      plSelf_filter,
      attach_filter_nil _ _ (fun x y => ⟨rfl, rfl⟩)]
    simp [isPLLine, routeMapLines, List.filter_cons]
  · exact pySorted_sorted e2
  · intro s
    rw [(pySorted_perm e2).mem_iff, henum.mem_iff]
    simp [List.mem_dedup, List.mem_append]
  · exact ((pySorted_perm e2).trans henum).nodup_iff.mpr (List.nodup_dedup _)

theorem c1_witness :
    ∃ lines, build_bgp exIntent "R2" exLb exLi ["2001:100:1::/64"]
        ["2001:100::1/128", "2001:100::2/128", "2001:100:1::/64"] = Except.ok lines ∧
      lines.filter isPLLine =
        Stmt.plDeny ::
          (pySorted ["2001:100::1/128", "2001:100::2/128", "2001:100:1::/64"]).enum.map
            (fun p => Stmt.plPermit (10 + 10 * p.1) p.2) ∧
      List.Pairwise (fun a b => strLe a b = true)
        (pySorted ["2001:100::1/128", "2001:100::2/128", "2001:100:1::/64"]) ∧
      (∀ s, s ∈ pySorted ["2001:100::1/128", "2001:100::2/128", "2001:100:1::/64"] ↔
        (s ∈ ["2001:100::1/128", "2001:100::2/128"] ∨
          s ∈ intra_as_prefixes_for_as exIntent (100 : Nat))) ∧
      (pySorted ["2001:100::1/128", "2001:100::2/128", "2001:100:1::/64"]).Nodup :=
  c1_pl_self_exact exIntent "R2" exLb exLi ["2001:100:1::/64"]
    ["2001:100::1/128", "2001:100::2/128", "2001:100:1::/64"]
    ⟨true, some "full_mesh"⟩ ⟨100, "2.2.2.2"⟩
    ["2001:100::1"] [("2001:900::2", 200, "R3")] "2001:100::2/128" ["2001:900::/64"]
    ["2001:100::1/128", "2001:100::2/128"] [("R3", "provider")]
    rfl rfl rfl rfl rfl rfl rfl rfl rfl rfl (by decide)
theorem mapM_ok_forall2 {α β : Type} (f : α → Except Err β) :
    ∀ (l : List α) (res : List β), l.mapM f = Except.ok res →
      List.Forall₂ (fun a b => f a = Except.ok b) l res := by
  intro l
  induction l with
  | nil =>
    intro res h
    simp only [List.mapM_nil] at h
    cases h
    exact List.Forall₂.nil
  | cons a as ih =>
    intro res h
    rw [List.mapM_cons] at h
    cases hfa : f a with
    | error e => rw [hfa] at h; exact absurd h (by simp [exBindErr])
    | ok b =>
      rw [hfa, exBindOk] at h
      cases hrest : as.mapM f with
      | error e => rw [hrest] at h; exact absurd h (by simp [exBindErr])
      | ok bs =>
        rw [hrest, exBindOk] at h
        cases h
        exact List.Forall₂.cons hfa (ih bs hrest)

theorem plSelf_filter_nil {p : Stmt → Bool} (xs : List String)
    (h1 : p Stmt.plDeny = false) (h2 : ∀ seq pfx, p (Stmt.plPermit seq pfx) = false)
    (h3 : p Stmt.bang = false) :
    (plSelfLines xs).filter p = [] := by
  show (Stmt.plDeny :: ((xs.enum.map _) ++ [Stmt.bang])).filter p = []
  rw [List.filter_cons_of_neg (by simp [h1]), List.filter_append,
    filter_map_nil _ _ _ (fun a => h2 _ _)]
  simp [h3]

theorem inter_subnets_forall2 (intent : Intent) (rname : String) (netB : List String)
    (h : inter_subnets_of intent rname = Except.ok netB) :
    List.Forall₂ (fun l s => l.subnet_v6 = some s)
      ((adjacency intent rname).filter (fun l => l.ltype = some "inter_as")) netB := by
  have h2 := mapM_ok_forall2 _ _ _ h
  refine h2.imp ?_
  intro a b hab
  cases hs : a.subnet_v6 with
  | none => rw [hs] at hab; exact absurd hab (by simp)
  | some s => rw [hs] at hab; simpa using hab

/-- C3: the network (origination) statements of a router's BGP block appear
in exactly this order: own loopback; subnets of incident inter-AS links in
adjacency (document) order; then, on border routers only, the intra-AS
subnets of the AS sorted ascending followed by all loopbacks of the AS
sorted ascending.  Non-border routers emit only the first two groups. -/
theorem c3_network_statements :
    (∀ intent rname lb li e1 e2 bgpcfg rdata ibgp ebgp ownLb netB lbs relmap,
      intent.bgp = some bgpcfg → bgpcfg.required = true →
      getRouter intent rname = Except.ok rdata →
      ibgp_peers_of intent rname lb bgpcfg rdata.asid = Except.ok ibgp →
      ebgp_peers_of intent rname li = Except.ok ebgp →
      has_ebgp_neighbor intent rname = Except.ok true →
      dget lb rname = Except.ok ownLb →
      inter_subnets_of intent rname = Except.ok netB →
      loopbacks_for_as intent lb rdata.asid = Except.ok lbs →
      get_interas_relationship_for_router intent rname = Except.ok relmap →
      List.Perm e1 (intra_as_prefixes_for_as intent rdata.asid) →
      ∃ lines, build_bgp intent rname lb li e1 e2 = Except.ok lines ∧
        lines.filter isNetworkLine =
          Stmt.network ownLb :: netB.map Stmt.network ++
          (pySorted (intra_as_prefixes_for_as intent rdata.asid)).map Stmt.network ++
          (pySorted lbs).map Stmt.network ∧
        List.Forall₂ (fun l s => l.subnet_v6 = some s)
          ((adjacency intent rname).filter (fun l => l.ltype = some "inter_as")) netB ∧
        List.Pairwise (fun a b => strLe a b = true)
          (pySorted (intra_as_prefixes_for_as intent rdata.asid)) ∧
        List.Pairwise (fun a b => strLe a b = true) (pySorted lbs)) ∧
    (∀ intent rname lb li e1 e2 bgpcfg rdata ibgp ebgp ownLb netB,
      intent.bgp = some bgpcfg → bgpcfg.required = true →
      getRouter intent rname = Except.ok rdata →
      ibgp_peers_of intent rname lb bgpcfg rdata.asid = Except.ok ibgp →
      ebgp_peers_of intent rname li = Except.ok ebgp →
      has_ebgp_neighbor intent rname = Except.ok false →
      dget lb rname = Except.ok ownLb →
      inter_subnets_of intent rname = Except.ok netB →
      ∃ lines, build_bgp intent rname lb li e1 e2 = Except.ok lines ∧
        lines.filter isNetworkLine = Stmt.network ownLb :: netB.map Stmt.network ∧
        List.Forall₂ (fun l s => l.subnet_v6 = some s)
          ((adjacency intent rname).filter (fun l => l.ltype = some "inter_as")) netB) := by
  constructor
  · intro intent rname lb li e1 e2 bgpcfg rdata ibgp ebgp ownLb netB lbs relmap
      hb hreq hr hi he hbo hl hn hlbs hrel henum1
    refine ⟨_, build_bgp_ok_border intent rname lb li e1 e2 bgpcfg rdata ibgp ebgp ownLb netB lbs
      relmap hb hreq hr hi he hbo hl hn hlbs hrel, ?_, inter_subnets_forall2 intent rname netB hn,
      pySorted_sorted _, pySorted_sorted _⟩
    rw [pySorted_eq_of_perm henum1]
    simp only [List.filter_append]
    rw [ibgpNbr_filter_nil _ _ (fun x => ⟨rfl, rfl⟩),
      ebgpNbr_filter_nil _ (fun x a => rfl),
      actI_filter_nil _ _ (fun x => ⟨rfl, rfl, rfl⟩),
      actE_filter_nil _ (fun x => ⟨rfl, rfl⟩),
      filter_map_all _ netB _ (fun a => rfl),
      filter_map_all _ (pySorted (intra_as_prefixes_for_as intent rdata.asid)) _ (fun a => rfl),
      filter_map_all _ (pySorted lbs) _ (fun a => rfl),
      attach_filter_nil _ _ (fun x y => ⟨rfl, rfl⟩),
      plSelf_filter_nil _ rfl (fun _ _ => rfl) rfl]
    simp [isNetworkLine, routeMapLines, List.filter_cons]
  · intro intent rname lb li e1 e2 bgpcfg rdata ibgp ebgp ownLb netB
      hb hreq hr hi he hbo hl hn
    refine ⟨_, build_bgp_ok_nonborder intent rname lb li e1 e2 bgpcfg rdata ibgp ebgp ownLb netB
      hb hreq hr hi he hbo hl hn, ?_, inter_subnets_forall2 intent rname netB hn⟩
    simp only [List.filter_append]
    rw [ibgpNbr_filter_nil _ _ (fun x => ⟨rfl, rfl⟩),
      ebgpNbr_filter_nil _ (fun x a => rfl),
      actI_filter_nil _ _ (fun x => ⟨rfl, rfl, rfl⟩),
      actE_filter_nil _ (fun x => ⟨rfl, rfl⟩),
      filter_map_all _ netB _ (fun a => rfl)]
    simp [isNetworkLine, List.filter_cons]

theorem c3_witness :
    (∃ lines, build_bgp exIntent "R2" exLb exLi ["2001:100:1::/64"] [] = Except.ok lines ∧
      lines.filter isNetworkLine =
        Stmt.network "2001:100::2/128" :: ["2001:900::/64"].map Stmt.network ++
        (pySorted (intra_as_prefixes_for_as exIntent (100 : Nat))).map Stmt.network ++
        (pySorted ["2001:100::1/128", "2001:100::2/128"]).map Stmt.network ∧
      List.Forall₂ (fun l s => l.subnet_v6 = some s)
        ((adjacency exIntent "R2").filter (fun l => l.ltype = some "inter_as"))
        ["2001:900::/64"] ∧
      List.Pairwise (fun a b => strLe a b = true)
        (pySorted (intra_as_prefixes_for_as exIntent (100 : Nat))) ∧
      List.Pairwise (fun a b => strLe a b = true)
        (pySorted ["2001:100::1/128", "2001:100::2/128"])) ∧
    (∃ lines, build_bgp exIntent "R1" exLb exLi [] [] = Except.ok lines ∧
      lines.filter isNetworkLine = Stmt.network "2001:100::1/128" :: [].map Stmt.network ∧
      List.Forall₂ (fun l s => l.subnet_v6 = some s)
        ((adjacency exIntent "R1").filter (fun l => l.ltype = some "inter_as")) []) :=
  ⟨c3_network_statements.1 exIntent "R2" exLb exLi ["2001:100:1::/64"] []
      ⟨true, some "full_mesh"⟩ ⟨100, "2.2.2.2"⟩ ["2001:100::1"]
      [("2001:900::2", 200, "R3")] "2001:100::2/128" ["2001:900::/64"]
      ["2001:100::1/128", "2001:100::2/128"] [("R3", "provider")]
      rfl rfl rfl rfl rfl rfl rfl rfl rfl rfl (by decide),
   c3_network_statements.2 exIntent "R1" exLb exLi [] []
      ⟨true, some "full_mesh"⟩ ⟨100, "1.1.1.1"⟩ ["2001:100::2"] [] "2001:100::1/128" []
      rfl rfl rfl rfl rfl rfl rfl rfl⟩
theorem filter_flatMap_all {α : Type} (p : Stmt → Bool) (l : List α) (f : α → List Stmt)
    (h : ∀ a, (f a).filter p = f a) : (l.flatMap f).filter p = l.flatMap f := by
  induction l with
  | nil => rfl
  | cons x xs ih => simp only [List.flatMap_cons, List.filter_append, h, ih]

theorem attach_eq_table (relmap : List (String × String)) (peers : List (String × Nat × String)) :
    attachLines relmap peers = peers.flatMap (fun t =>
      [Stmt.nbrRMOut t.1 (rmOutName ((relmap.lookup t.2.2).getD "peer")),
       Stmt.nbrRMIn t.1 (rmInName ((relmap.lookup t.2.2).getD "peer"))]) := by
  unfold attachLines rmOutName rmInName
  congr 1
  funext t
  by_cases h1 : (relmap.lookup t.2.2).getD "peer" = "client"
  · simp [h1]
  · by_cases h2 : (relmap.lookup t.2.2).getD "peer" = "provider" <;> simp [h1, h2]

theorem attach_filter_all (relmap : List (String × String)) (peers : List (String × Nat × String)) :
    (attachLines relmap peers).filter isAttachLine = attachLines relmap peers := by
  apply filter_flatMap_all
  intro a
  by_cases h1 : (relmap.lookup a.2.2).getD "peer" = "client"
  · simp [attachLines, h1, List.filter_cons, isAttachLine]
  · by_cases h2 : (relmap.lookup a.2.2).getD "peer" = "provider" <;>
      simp [attachLines, h1, h2, List.filter_cons, isAttachLine]

/-- C4: on a border router the route-maps attached to each exterior
neighbor are a pure function of the declared relationship: client gets
(RM-OUT-CLIENT, RM-IN-CLIENT), provider gets (RM-OUT-PEERPROV, RM-IN-PROV),
and peer, an unspecified or any unrecognized relationship gets
(RM-OUT-PEERPROV, RM-IN-PEER). -/
theorem c4_route_map_attachment :
    ∀ intent rname lb li e1 e2 bgpcfg rdata ibgp ebgp ownLb netB lbs relmap,
      intent.bgp = some bgpcfg → bgpcfg.required = true →
      getRouter intent rname = Except.ok rdata →
      ibgp_peers_of intent rname lb bgpcfg rdata.asid = Except.ok ibgp →
      ebgp_peers_of intent rname li = Except.ok ebgp →
      has_ebgp_neighbor intent rname = Except.ok true →
      dget lb rname = Except.ok ownLb →
      inter_subnets_of intent rname = Except.ok netB →
      loopbacks_for_as intent lb rdata.asid = Except.ok lbs →
      get_interas_relationship_for_router intent rname = Except.ok relmap →
      ∃ lines, build_bgp intent rname lb li e1 e2 = Except.ok lines ∧
        lines.filter isAttachLine = ebgp.flatMap (fun t =>
          [Stmt.nbrRMOut t.1 (rmOutName ((relmap.lookup t.2.2).getD "peer")),
           Stmt.nbrRMIn t.1 (rmInName ((relmap.lookup t.2.2).getD "peer"))]) ∧
        (∀ rel, rel = "client" →
          rmOutName rel = "RM-OUT-CLIENT" ∧ rmInName rel = "RM-IN-CLIENT") ∧
        (∀ rel, rel = "provider" →
          rmOutName rel = "RM-OUT-PEERPROV" ∧ rmInName rel = "RM-IN-PROV") ∧
        (∀ rel, rel ≠ "client" → rel ≠ "provider" →
          rmOutName rel = "RM-OUT-PEERPROV" ∧ rmInName rel = "RM-IN-PEER") := by
  intro intent rname lb li e1 e2 bgpcfg rdata ibgp ebgp ownLb netB lbs relmap
    hb hreq hr hi he hbo hl hn hlbs hrel
  refine ⟨_, build_bgp_ok_border intent rname lb li e1 e2 bgpcfg rdata ibgp ebgp ownLb netB lbs
    relmap hb hreq hr hi he hbo hl hn hlbs hrel, ?_, ?_, ?_, ?_⟩
  · simp only [List.filter_append]
    rw [ibgpNbr_filter_nil _ _ (fun x => ⟨rfl, rfl⟩),
      ebgpNbr_filter_nil _ (fun x a => rfl),
      actI_filter_nil _ _ (fun x => ⟨rfl, rfl, rfl⟩),
      actE_filter_nil _ (fun x => ⟨rfl, rfl⟩),
      filter_map_nil _ _ _ (fun a => rfl),
      filter_map_nil _ _ _ (fun a => rfl),
      filter_map_nil _ _ _ (fun a => rfl),
      plSelf_filter_nil _ rfl (fun _ _ => rfl) rfl,
      attach_filter_all, attach_eq_table]
    simp [isAttachLine, routeMapLines, List.filter_cons]
  · intro rel h; subst h; exact ⟨rfl, rfl⟩
  · intro rel h; subst h; exact ⟨rfl, rfl⟩
  · intro rel h1 h2
    simp only [rmOutName, rmInName, if_neg h1, if_neg h2]
    exact ⟨trivial, trivial⟩

theorem c4_witness :
    ∃ lines, build_bgp exIntent "R2" exLb exLi [] [] = Except.ok lines ∧
      lines.filter isAttachLine = [("2001:900::2", 200, "R3")].flatMap (fun t =>
        [Stmt.nbrRMOut t.1 (rmOutName (([("R3", "provider")].lookup t.2.2).getD "peer")),
         Stmt.nbrRMIn t.1 (rmInName (([("R3", "provider")].lookup t.2.2).getD "peer"))]) ∧
      (∀ rel, rel = "client" →
        rmOutName rel = "RM-OUT-CLIENT" ∧ rmInName rel = "RM-IN-CLIENT") ∧
      (∀ rel, rel = "provider" →
        rmOutName rel = "RM-OUT-PEERPROV" ∧ rmInName rel = "RM-IN-PROV") ∧
      (∀ rel, rel ≠ "client" → rel ≠ "provider" →
        rmOutName rel = "RM-OUT-PEERPROV" ∧ rmInName rel = "RM-IN-PEER") :=
  c4_route_map_attachment exIntent "R2" exLb exLi [] []
    ⟨true, some "full_mesh"⟩ ⟨100, "2.2.2.2"⟩ ["2001:100::1"]
    [("2001:900::2", 200, "R3")] "2001:100::2/128" ["2001:900::/64"]
    ["2001:100::1/128", "2001:100::2/128"] [("R3", "provider")]
    rfl rfl rfl rfl rfl rfl rfl rfl rfl rfl
theorem has_ebgp_aux_iff (rname : String) : ∀ links : List Link,
    (∀ l ∈ links, l.endpoints.length = 2) →
    ∀ b, has_ebgp_aux links rname = Except.ok b →
    (b = true ↔ ∃ l ∈ links, l.ltype = some "inter_as" ∧
      ∃ ep ∈ l.endpoints, ep.router = rname) := by
  intro links
  induction links with
  | nil =>
    intro _ b hb
    simp only [has_ebgp_aux] at hb
    cases hb
    simp
  | cons l ls ih =>
    intro h2 b hb
    have h2l := h2 l (List.mem_cons_self l ls)
    have h2ls : ∀ x ∈ ls, x.endpoints.length = 2 :=
      fun x hx => h2 x (List.mem_cons_of_mem l hx)
    by_cases ht : l.ltype = some "inter_as"
    · obtain ⟨e0, e1, heps⟩ := List.length_eq_two.mp h2l
      rw [has_ebgp_aux] at hb
      rw [if_neg (by simp [ht]), heps] at hb
      dsimp only at hb
      by_cases h0 : e0.router = rname
      · rw [if_pos h0] at hb
        cases hb
        simp only [true_iff]
        exact ⟨l, List.mem_cons_self l ls, ht, e0, by simp [heps], h0⟩
      · rw [if_neg h0] at hb
        by_cases h1 : e1.router = rname
        · rw [if_pos h1] at hb
          cases hb
          simp only [true_iff]
          exact ⟨l, List.mem_cons_self l ls, ht, e1, by simp [heps], h1⟩
        · rw [if_neg h1] at hb
          rw [ih h2ls b hb]
          constructor
          · rintro ⟨x, hx, hxt, ep, hep, hepr⟩
            exact ⟨x, List.mem_cons_of_mem l hx, hxt, ep, hep, hepr⟩
          · rintro ⟨x, hx, hxt, ep, hep, hepr⟩
            rcases List.mem_cons.mp hx with rfl | hx
            · rw [heps] at hep
              rcases List.mem_cons.mp hep with rfl | hep
              · exact absurd hepr h0
              · rcases List.mem_singleton.mp hep with rfl
                exact absurd hepr h1
            · exact ⟨x, hx, hxt, ep, hep, hepr⟩
    · rw [has_ebgp_aux, if_pos (by simp [ht])] at hb
      rw [ih h2ls b hb]
      constructor
      · rintro ⟨x, hx, hxt, hrest⟩
        exact ⟨x, List.mem_cons_of_mem l hx, hxt, hrest⟩
      · rintro ⟨x, hx, hxt, hrest⟩
        rcases List.mem_cons.mp hx with rfl | hx
        · exact absurd hxt ht
        · exact ⟨x, hx, hxt, hrest⟩

theorem actI_filter_nhs_false (peers : List String) :
    (actILines peers false).filter isNHSLine = [] := by
  apply filter_flatMap_nil
  intro a
  simp [List.filter_append, List.filter_cons, isNHSLine]

theorem actI_filter_nhs_true (peers : List String) :
    (actILines peers true).filter isNHSLine = peers.map Stmt.neighborNextHopSelf := by
  induction peers with
  | nil => rfl
  | cons x xs ih =>
    simp only [actILines] at ih ⊢
    simp only [List.flatMap_cons, List.filter_append, ih]
    simp [List.filter_cons, isNHSLine]

/-- C5: a router is border iff it is an endpoint of at least one inter-AS
link (for documents whose links have exactly two endpoints, as the
allocator enforces), and in the generated address family every interior
peer carries the next-hop-self directive iff the router is border; a
non-border router emits no next-hop-self directive at all. -/
theorem c5_border_next_hop_self :
    (∀ intent rname b,
      (∀ l ∈ intent.links, l.endpoints.length = 2) →
      has_ebgp_neighbor intent rname = Except.ok b →
      (b = true ↔ ∃ l ∈ intent.links, l.ltype = some "inter_as" ∧
        ∃ ep ∈ l.endpoints, ep.router = rname)) ∧
    (∀ intent rname lb li e1 e2 bgpcfg rdata ibgp ebgp ownLb netB lbs relmap,
      intent.bgp = some bgpcfg → bgpcfg.required = true →
      getRouter intent rname = Except.ok rdata →
      ibgp_peers_of intent rname lb bgpcfg rdata.asid = Except.ok ibgp →
      ebgp_peers_of intent rname li = Except.ok ebgp →
      has_ebgp_neighbor intent rname = Except.ok true →
      dget lb rname = Except.ok ownLb →
      inter_subnets_of intent rname = Except.ok netB →
      loopbacks_for_as intent lb rdata.asid = Except.ok lbs →
      get_interas_relationship_for_router intent rname = Except.ok relmap →
      ∃ lines, build_bgp intent rname lb li e1 e2 = Except.ok lines ∧
        lines.filter isNHSLine = ibgp.map Stmt.neighborNextHopSelf) ∧
    (∀ intent rname lb li e1 e2 bgpcfg rdata ibgp ebgp ownLb netB,
      intent.bgp = some bgpcfg → bgpcfg.required = true →
      getRouter intent rname = Except.ok rdata →
      ibgp_peers_of intent rname lb bgpcfg rdata.asid = Except.ok ibgp →
      ebgp_peers_of intent rname li = Except.ok ebgp →
      has_ebgp_neighbor intent rname = Except.ok false →
      dget lb rname = Except.ok ownLb →
      inter_subnets_of intent rname = Except.ok netB →
      ∃ lines, build_bgp intent rname lb li e1 e2 = Except.ok lines ∧
        lines.filter isNHSLine = []) := by
  refine ⟨fun intent rname b h2 hb => has_ebgp_aux_iff rname intent.links h2 b hb, ?_, ?_⟩
  · intro intent rname lb li e1 e2 bgpcfg rdata ibgp ebgp ownLb netB lbs relmap
      hb hreq hr hi he hbo hl hn hlbs hrel
    refine ⟨_, build_bgp_ok_border intent rname lb li e1 e2 bgpcfg rdata ibgp ebgp ownLb netB lbs
      relmap hb hreq hr hi he hbo hl hn hlbs hrel, ?_⟩
    simp only [List.filter_append]
    rw [ibgpNbr_filter_nil _ _ (fun x => ⟨rfl, rfl⟩),
      ebgpNbr_filter_nil _ (fun x a => rfl),
      actI_filter_nhs_true,
      actE_filter_nil _ (fun x => ⟨rfl, rfl⟩),
      filter_map_nil _ _ _ (fun a => rfl),
      filter_map_nil _ _ _ (fun a => rfl),
      filter_map_nil _ _ _ (fun a => rfl),
      plSelf_filter_nil _ rfl (fun _ _ => rfl) rfl,
      attach_filter_nil _ _ (fun x y => ⟨rfl, rfl⟩)]
    simp [isNHSLine, routeMapLines, List.filter_cons]
  · intro intent rname lb li e1 e2 bgpcfg rdata ibgp ebgp ownLb netB
      hb hreq hr hi he hbo hl hn
    refine ⟨_, build_bgp_ok_nonborder intent rname lb li e1 e2 bgpcfg rdata ibgp ebgp ownLb netB
      hb hreq hr hi he hbo hl hn, ?_⟩
    simp only [List.filter_append]
    rw [ibgpNbr_filter_nil _ _ (fun x => ⟨rfl, rfl⟩),
      ebgpNbr_filter_nil _ (fun x a => rfl),
      actI_filter_nhs_false,
      actE_filter_nil _ (fun x => ⟨rfl, rfl⟩),
      filter_map_nil _ _ _ (fun a => rfl)]
    simp [isNHSLine, List.filter_cons]

theorem c5_witness :
    (true = true ↔ ∃ l ∈ exIntent.links, l.ltype = some "inter_as" ∧
      ∃ ep ∈ l.endpoints, ep.router = "R2") ∧
    (∃ lines, build_bgp exIntent "R2" exLb exLi [] [] = Except.ok lines ∧
      lines.filter isNHSLine = ["2001:100::1"].map Stmt.neighborNextHopSelf) ∧
    (∃ lines, build_bgp exIntent "R1" exLb exLi [] [] = Except.ok lines ∧
      lines.filter isNHSLine = []) :=
  ⟨c5_border_next_hop_self.1 exIntent "R2" true (by decide) rfl,
   c5_border_next_hop_self.2.1 exIntent "R2" exLb exLi [] []
     ⟨true, some "full_mesh"⟩ ⟨100, "2.2.2.2"⟩ ["2001:100::1"]
     [("2001:900::2", 200, "R3")] "2001:100::2/128" ["2001:900::/64"]
     ["2001:100::1/128", "2001:100::2/128"] [("R3", "provider")]
     rfl rfl rfl rfl rfl rfl rfl rfl rfl rfl,
   c5_border_next_hop_self.2.2 exIntent "R1" exLb exLi [] []
     ⟨true, some "full_mesh"⟩ ⟨100, "1.1.1.1"⟩ ["2001:100::2"] [] "2001:100::1/128" []
     rfl rfl rfl rfl rfl rfl rfl rfl⟩

/-- C8: compilation is deterministic. The only run-dependent inputs of the
source are the iteration orders of the two Python sets, both consumed
through `sorted`; any two admissible orders (permutations of one another)
yield byte-identical configuration text for the router. -/
theorem c8_deterministic (intent : Intent) (rname : String) (lb : Dict) (li : LDict)
    {e1 e1' e2 e2' : List String} (h1 : List.Perm e1 e1') (h2 : List.Perm e2 e2') :
    (build_router_config intent rname lb li e1 e2).map config_text_of =
    (build_router_config intent rname lb li e1' e2').map config_text_of := by
  rw [build_router_config_enum_invariant intent rname lb li h1 h2]

theorem c8_witness :
    (build_router_config exIntent "R2" exLb exLi ["b", "a"] ["d", "c"]).map config_text_of =
    (build_router_config exIntent "R2" exLb exLi ["a", "b"] ["c", "d"]).map config_text_of :=
  c8_deterministic exIntent "R2" exLb exLi (by decide) (by decide)
/-- C2 counterexample: c2doc contains an invalid input (unsupported IGP
type "eigrp"), yet the run writes R1's configuration file before aborting:
the output is not all-or-nothing. -/
theorem c2_counterexample :
    (main_run c2doc).1.map (fun p => p.1) = ["R1"] ∧
    (main_run c2doc).2 = some (Err.unsupportedIGP "eigrp") :=
  ⟨rfl, rfl⟩

/-- C2 (amended): failures detected during address allocation do abort the
run before any router file is written; generation-stage failures abort the
per-router loop instead, keeping files already written (see the
counterexample). -/
theorem c2_allocation_failures_all_or_nothing (intent : Intent) :
    ((∃ e, allocate_loopbacks intent = Except.error e) ∨
     (∃ e, allocate_link_ips intent = Except.error e)) →
    (main_run intent).1 = [] ∧ (main_run intent).2.isSome := by
  intro h
  cases hlb : allocate_loopbacks intent with
  | error e => simp [main_run, hlb]
  | ok lb =>
    cases hli : allocate_link_ips intent with
    | error e => simp [main_run, hlb, hli]
    | ok li =>
      rcases h with ⟨e, he⟩ | ⟨e, he⟩
      · rw [hlb] at he; exact absurd he (by simp)
      · rw [hli] at he; exact absurd he (by simp)

theorem c2_amended_witness :
    (main_run badPoolDoc).1 = [] ∧ (main_run badPoolDoc).2.isSome :=
  c2_allocation_failures_all_or_nothing badPoolDoc
    (Or.inl ⟨Err.invalidPfxLen "1" 60, rfl⟩)
theorem except_ok_of_append_ok {α σ : Type} {f : σ → α → Except Err σ} {l1 l2 : List α}
    {init : σ} {out : σ} (h : (l1 ++ l2).foldlM f init = Except.ok out) :
    ∃ mid, l1.foldlM f init = Except.ok mid ∧ l2.foldlM f mid = Except.ok out := by
  rw [List.foldlM_append] at h
  cases h1 : l1.foldlM f init with
  | error e => rw [h1] at h; exact absurd h (by simp [exBindErr])
  | ok mid => rw [h1, exBindOk] at h; exact ⟨mid, rfl, h⟩

theorem except_cons_ok {α σ : Type} {f : σ → α → Except Err σ} {x : α} {l : List α}
    {init : σ} {out : σ} (h : (x :: l).foldlM f init = Except.ok out) :
    ∃ mid, f init x = Except.ok mid ∧ l.foldlM f mid = Except.ok out := by
  rw [List.foldlM_cons] at h
  cases h1 : f init x with
  | error e => rw [h1] at h; exact absurd h (by simp [exBindErr])
  | ok mid => rw [h1, exBindOk] at h; exact ⟨mid, rfl, h⟩

theorem dinsertS_lookup_self (d : Dict) (k v : String) :
    (dinsertS d k v).lookup k = some v := by
  induction d with
  | nil => simp [dinsertS, List.lookup_cons]
  | cons p rest ih =>
    obtain ⟨k', v'⟩ := p
    by_cases h : k' = k
    · subst h; simp [dinsertS, List.lookup_cons]
    · have hb : (k == k') = false := by simp [Ne.symm h]
      simp [dinsertS, h, List.lookup_cons, hb, ih]

theorem dinsertS_lookup_other (d : Dict) (k k' v : String) (h : k' ≠ k) :
    (dinsertS d k v).lookup k' = d.lookup k' := by
  induction d with
  | nil =>
    have hb : (k' == k) = false := by simp [h]
    simp [dinsertS, List.lookup_cons, hb]
  | cons p rest ih =>
    obtain ⟨k0, v0⟩ := p
    by_cases h0 : k0 = k
    · subst h0
      have hb : (k' == k0) = false := by simp [h]
      simp [dinsertS, List.lookup_cons, hb]
    · by_cases h1 : k' = k0
      · subst h1
        have hb : (k' == k') = true := by simp
        simp [dinsertS, h0, List.lookup_cons, hb]
      · have hb : (k' == k0) = false := by simp [h1]
        simp [dinsertS, h0, List.lookup_cons, hb, ih]

/-- The enumerated assignment loop of `allocate_loopbacks` leaves keys that
are not in the router list untouched. -/
theorem loopback_fold_notmem (base : Nat) : ∀ (routers : List String) (k : Nat) (out : Dict)
    (key : String), key ∉ routers →
    ((List.enumFrom k routers).foldl
      (fun o p => dinsertS o p.2 (renderIPv6 (base + (p.1 + 1)) ++ "/128")) out).lookup key =
      out.lookup key := by
  intro routers
  induction routers with
  | nil => intro k out key _; rfl
  | cons r rs ih =>
    intro k out key hk
    rw [List.enumFrom_cons]
    have h1 : key ≠ r := fun h => hk (h ▸ List.mem_cons_self r rs)
    have h2 : key ∉ rs := fun h => hk (List.mem_cons_of_mem r h)
    show ((List.enumFrom (k + 1) rs).foldl _ (dinsertS out r _)).lookup key = _
    rw [ih (k + 1) _ key h2, dinsertS_lookup_other _ _ _ _ h1]

/-- The assignment loop maps the router at 0-based position `i` (enumerated
from `k`) to the address `base + (k + i + 1)`. -/
theorem loopback_fold_lookup (base : Nat) : ∀ (routers : List String) (k : Nat) (out : Dict)
    (i : Nat) (hi : i < routers.length), routers.Nodup →
    ((List.enumFrom k routers).foldl
      (fun o p => dinsertS o p.2 (renderIPv6 (base + (p.1 + 1)) ++ "/128")) out).lookup
        (routers.get ⟨i, hi⟩) = some (renderIPv6 (base + (k + i + 1)) ++ "/128") := by
  intro routers
  induction routers with
  | nil => intro k out i hi; exact absurd hi (by simp)
  | cons r rs ih =>
    intro k out i hi hnd
    rw [List.nodup_cons] at hnd
    rw [List.enumFrom_cons]
    cases i with
    | zero =>
      show ((List.enumFrom (k + 1) rs).foldl _ (dinsertS out r _)).lookup r = _
      rw [loopback_fold_notmem base rs (k + 1) _ r hnd.1, dinsertS_lookup_self]
    | succ j =>
      have hj : j < rs.length := by simpa using hi
      show ((List.enumFrom (k + 1) rs).foldl _ (dinsertS out r _)).lookup (rs.get ⟨j, hj⟩) = _
      have harr : k + 1 + j + 1 = k + (j + 1) + 1 := by omega
      rw [ih (k + 1) _ j hj hnd.2, harr]

theorem alloc_as_step_ok (out : Dict) (asn : Nat) (asdata : ASData) (base : Nat)
    (hparse : parseIPv6Net asdata.loopback_pool = some (base, 64))
    (hne : asdata.routers ≠ []) :
    alloc_as_step out (asn, asdata) = Except.ok
      (asdata.routers.enum.foldl
        (fun o p => dinsertS o p.2 (renderIPv6 (base + (p.1 + 1)) ++ "/128")) out) := by
  unfold alloc_as_step
  rw [hparse]
  simp [hne]

theorem alloc_as_step_err_pfx (out : Dict) (asn : Nat) (asdata : ASData) (base plen : Nat)
    (hparse : parseIPv6Net asdata.loopback_pool = some (base, plen)) (hp : plen ≠ 64) :
    alloc_as_step out (asn, asdata) = Except.error (Err.invalidPfxLen (toString asn) plen) := by
  unfold alloc_as_step
  rw [hparse]
  simp [hp]

theorem alloc_as_step_err_empty (out : Dict) (asn : Nat) (asdata : ASData) (base : Nat)
    (hparse : parseIPv6Net asdata.loopback_pool = some (base, 64))
    (he : asdata.routers = []) :
    alloc_as_step out (asn, asdata) = Except.error (Err.emptyRouters asn) := by
  unfold alloc_as_step
  rw [hparse]
  simp [he]

theorem alloc_as_step_preserves (out out' : Dict) (a : Nat × ASData) (key : String)
    (h : alloc_as_step out a = Except.ok out') (hk : key ∉ a.2.routers) :
    out'.lookup key = out.lookup key := by
  unfold alloc_as_step at h
  cases hp : parseIPv6Net a.2.loopback_pool with
  | none => rw [hp] at h; exact absurd h (by simp)
  | some p =>
    obtain ⟨base, plen⟩ := p
    rw [hp] at h
    dsimp only at h
    by_cases h64 : plen ≠ 64
    · rw [if_pos h64] at h; exact absurd h (by simp)
    · rw [if_neg h64] at h
      by_cases hemp : a.2.routers.isEmpty
      · rw [if_pos hemp] at h; exact absurd h (by simp)
      · rw [if_neg hemp] at h
        cases h
        have : a.2.routers.enum = List.enumFrom 0 a.2.routers := rfl
        rw [this, loopback_fold_notmem base a.2.routers 0 out key hk]

theorem allocate_fold_preserves : ∀ (ases : List (Nat × ASData)) (out out' : Dict) (key : String),
    ases.foldlM alloc_as_step out = Except.ok out' →
    (∀ a ∈ ases, key ∉ a.2.routers) →
    out'.lookup key = out.lookup key := by
  intro ases
  induction ases with
  | nil => intro out out' key h _; rw [List.foldlM_nil] at h; cases h; rfl
  | cons a as ih =>
    intro out out' key h hk
    obtain ⟨mid, h1, h2⟩ := except_cons_ok h
    rw [ih mid out' key h2 (fun x hx => hk x (List.mem_cons_of_mem a hx)),
      alloc_as_step_preserves out mid a key h1 (hk a (List.mem_cons_self a as))]

/-- C6: for every AS with a /64 loopback pool and a non-empty router list,
the router at 1-based position i gets the pool base plus i as a /128, and
the addresses assigned within the AS are pairwise distinct; a pool whose
prefix length is not 64 aborts the run with InvalidPrefixLength, and an
empty router list aborts it with EmptyRouterSet. -/
theorem c6_loopback_allocation :
    (∀ intent out asn asdata base i (hi : i < asdata.routers.length),
      allocate_loopbacks intent = Except.ok out →
      (intent.ases.flatMap (fun a => a.2.routers)).Nodup →
      (asn, asdata) ∈ intent.ases →
      parseIPv6Net asdata.loopback_pool = some (base, 64) →
      out.lookup (asdata.routers.get ⟨i, hi⟩) =
        some (renderIPv6 (base + (i + 1)) ++ "/128") ∧
      (∀ j, j < asdata.routers.length → j ≠ i → base + (j + 1) ≠ base + (i + 1))) ∧
    (∀ intent pre post asn asdata base plen out0,
      intent.ases = pre ++ (asn, asdata) :: post →
      pre.foldlM alloc_as_step [] = Except.ok out0 →
      parseIPv6Net asdata.loopback_pool = some (base, plen) →
      plen ≠ 64 →
      allocate_loopbacks intent = Except.error (Err.invalidPfxLen (toString asn) plen)) ∧
    (∀ intent pre post asn asdata base out0,
      intent.ases = pre ++ (asn, asdata) :: post →
      pre.foldlM alloc_as_step [] = Except.ok out0 →
      parseIPv6Net asdata.loopback_pool = some (base, 64) →
      asdata.routers = [] →
      allocate_loopbacks intent = Except.error (Err.emptyRouters asn)) := by
  refine ⟨?_, ?_, ?_⟩
  · intro intent out asn asdata base i hi hok hnd hmem hparse
    refine ⟨?_, fun j _ hj => by omega⟩
    obtain ⟨pre, post, hsplit⟩ := List.append_of_mem hmem
    unfold allocate_loopbacks at hok
    rw [hsplit] at hok hnd
    rw [List.flatMap_append, List.flatMap_cons] at hnd
    rw [List.nodup_append] at hnd
    obtain ⟨-, hnd2, -⟩ := hnd
    rw [List.nodup_append] at hnd2
    obtain ⟨hnd_mid, -, hdisj⟩ := hnd2
    obtain ⟨out0, h1, h2⟩ := except_ok_of_append_ok hok
    obtain ⟨out1, h3, h4⟩ := except_cons_ok h2
    have hne : asdata.routers ≠ [] := by
      intro he; rw [he] at hi; exact absurd hi (by simp)
    rw [alloc_as_step_ok out0 asn asdata base hparse hne] at h3
    cases h3
    have hkey : asdata.routers.get ⟨i, hi⟩ ∈ asdata.routers := List.get_mem _ i hi
    have hnotpost : ∀ a ∈ post, asdata.routers.get ⟨i, hi⟩ ∉ a.2.routers := by
      intro a ha hk
      exact hdisj hkey (List.mem_flatMap.mpr ⟨a, ha, hk⟩)
    rw [allocate_fold_preserves post _ out _ h4 hnotpost]
    have henum : asdata.routers.enum = List.enumFrom 0 asdata.routers := rfl
    rw [henum, loopback_fold_lookup base asdata.routers 0 out0 i hi hnd_mid]
    have : 0 + i + 1 = i + 1 := by omega
    rw [this]
  · intro intent pre post asn asdata base plen out0 hsplit hpre hparse hp
    unfold allocate_loopbacks
    rw [hsplit, List.foldlM_append, hpre, exBindOk, List.foldlM_cons,
      alloc_as_step_err_pfx out0 asn asdata base plen hparse hp, exBindErr]
  · intro intent pre post asn asdata base out0 hsplit hpre hparse he
    unfold allocate_loopbacks
    rw [hsplit, List.foldlM_append, hpre, exBindOk, List.foldlM_cons,
      alloc_as_step_err_empty out0 asn asdata base hparse he, exBindErr]

theorem c6_witness :
    (exLb.lookup ((["R1", "R2"] : List String).get ⟨1, by decide⟩) =
      some (renderIPv6 (42540508444385446412220780372551532544 + (1 + 1)) ++ "/128") ∧
      (∀ j, j < (["R1", "R2"] : List String).length → j ≠ 1 →
        42540508444385446412220780372551532544 + (j + 1) ≠
        42540508444385446412220780372551532544 + (1 + 1))) ∧
    allocate_loopbacks badPoolDoc = Except.error (Err.invalidPfxLen "1" 60) ∧
    allocate_loopbacks emptyASDoc = Except.error (Err.emptyRouters 1) :=
  ⟨c6_loopback_allocation.1 exIntent exLb 100 exAS100
      42540508444385446412220780372551532544 1 (by decide) rfl (by decide) (by decide) rfl,
   c6_loopback_allocation.2.1 badPoolDoc [] [] 1
      ⟨"2001:1::/60", ["R1"], igpNone⟩ 42540488241204005274814694018844196864 60 []
      rfl rfl (by decide) (by decide),
   c6_loopback_allocation.2.2 emptyASDoc [] [] 1
      ⟨"2001:1::/64", [], igpNone⟩ 42540488241204005274814694018844196864 []
      rfl rfl (by decide) rfl⟩
theorem dinsertL_lookup_self (d : LDict) (k : String × String) (v : String) :
    (dinsertL d k v).lookup k = some v := by
  induction d with
  | nil => simp [dinsertL, List.lookup_cons]
  | cons p rest ih =>
    obtain ⟨k', v'⟩ := p
    by_cases h : k' = k
    · subst h; simp [dinsertL, List.lookup_cons]
    · have hb : (k == k') = false := by simp [Ne.symm h]
      simp [dinsertL, h, List.lookup_cons, hb, ih]

theorem dinsertL_lookup_other (d : LDict) (k k' : String × String) (v : String) (h : k' ≠ k) :
    (dinsertL d k v).lookup k' = d.lookup k' := by
  induction d with
  | nil =>
    have hb : (k' == k) = false := by simp [h]
    simp [dinsertL, List.lookup_cons, hb]
  | cons p rest ih =>
    obtain ⟨k0, v0⟩ := p
    by_cases h0 : k0 = k
    · subst h0
      have hb : (k' == k0) = false := by simp [h]
      simp [dinsertL, List.lookup_cons, hb]
    · by_cases h1 : k' = k0
      · subst h1
        have hb : (k' == k') = true := by simp
        simp [dinsertL, h0, List.lookup_cons, hb]
      · have hb : (k' == k0) = false := by simp [h1]
        simp [dinsertL, h0, List.lookup_cons, hb, ih]

/-- A successful `allocate_link_ips` step on a two-endpoint link: both
duplicate-use checks were passed against the incoming table, and the
result is the double insertion. -/
theorem alloc_link_step_ok_inv (out out' : LDict) (link : Link) (str : String)
    (S : Nat) (e0 e1 : Endpoint)
    (hsub : link.subnet_v6 = some str)
    (hparse : parseIPv6Net str = some (S, 64))
    (heps : link.endpoints = [e0, e1])
    (h : alloc_link_step out link = Except.ok out') :
    out.lookup (e0.router, e0.iface) = none ∧
    out.lookup (e1.router, e1.iface) = none ∧
    out' = dinsertL (dinsertL out (e0.router, e0.iface) (renderIPv6 (S + 1) ++ "/64"))
      (e1.router, e1.iface) (renderIPv6 (S + 2) ++ "/64") := by
  unfold alloc_link_step at h
  rw [hsub] at h
  dsimp only at h
  have hne : str ≠ "" := by
    intro he
    rw [he, (rfl : parseIPv6Net "" = none)] at hparse
    exact Option.noConfusion hparse
  rw [if_neg hne, hparse] at h
  dsimp only at h
  rw [if_neg (by omega), heps] at h
  dsimp only at h
  cases h0 : (out.lookup (e0.router, e0.iface)).isSome with
  | true => rw [h0] at h; exact absurd h (by simp)
  | false =>
    rw [h0, if_neg (by simp)] at h
    cases h1 : (out.lookup (e1.router, e1.iface)).isSome with
    | true => rw [h1] at h; exact absurd h (by simp)
    | false =>
      rw [h1, if_neg (by simp)] at h
      cases h
      exact ⟨Option.not_isSome_iff_eq_none.mp (by simp [h0]),
        Option.not_isSome_iff_eq_none.mp (by simp [h1]), rfl⟩

theorem alloc_link_step_preserves_some (out out' : LDict) (link : Link)
    (key : String × String) (v : String)
    (h : alloc_link_step out link = Except.ok out') (hv : out.lookup key = some v) :
    out'.lookup key = some v := by
  unfold alloc_link_step at h
  cases hsub : link.subnet_v6 with
  | none => rw [hsub] at h; exact absurd h (by simp)
  | some str =>
    rw [hsub] at h
    dsimp only at h
    by_cases hne : str = ""
    · rw [if_pos hne] at h; exact absurd h (by simp)
    · rw [if_neg hne] at h
      cases hp : parseIPv6Net str with
      | none => rw [hp] at h; exact absurd h (by simp)
      | some p =>
        obtain ⟨S, plen⟩ := p
        rw [hp] at h
        dsimp only at h
        by_cases h64 : plen ≠ 64
        · rw [if_pos h64] at h; exact absurd h (by simp)
        · rw [if_neg h64] at h
          rcases heps : link.endpoints with _ | ⟨e0, _ | ⟨e1, _ | ⟨e2, rest⟩⟩⟩
          · rw [heps] at h; exact absurd h (by simp)
          · rw [heps] at h; exact absurd h (by simp)
          · rw [heps] at h
            dsimp only at h
            cases h0 : (out.lookup (e0.router, e0.iface)).isSome with
            | true => rw [h0] at h; exact absurd h (by simp)
            | false =>
              rw [h0, if_neg (by simp)] at h
              cases h1 : (out.lookup (e1.router, e1.iface)).isSome with
              | true => rw [h1] at h; exact absurd h (by simp)
              | false =>
                rw [h1, if_neg (by simp)] at h
                cases h
                have hk0 : key ≠ (e0.router, e0.iface) := by
                  intro he; rw [← he, hv] at h0; exact absurd h0 (by simp)
                have hk1 : key ≠ (e1.router, e1.iface) := by
                  intro he; rw [← he, hv] at h1; exact absurd h1 (by simp)
                rw [dinsertL_lookup_other _ _ _ _ hk1, dinsertL_lookup_other _ _ _ _ hk0, hv]
          · rw [heps] at h; exact absurd h (by simp)

theorem link_fold_preserves_some : ∀ (links : List Link) (out out' : LDict)
    (key : String × String) (v : String),
    links.foldlM alloc_link_step out = Except.ok out' →
    out.lookup key = some v → out'.lookup key = some v := by
  intro links
  induction links with
  | nil => intro out out' key v h hv; rw [List.foldlM_nil] at h; cases h; exact hv
  | cons l ls ih =>
    intro out out' key v h hv
    obtain ⟨mid, h1, h2⟩ := except_cons_ok h
    exact ih mid out' key v h2 (alloc_link_step_preserves_some out mid l key v h1 hv)

theorem alloc_link_step_err_pfx (out : LDict) (link : Link) (str : String) (S plen : Nat)
    (hsub : link.subnet_v6 = some str) (hne : str ≠ "")
    (hp : parseIPv6Net str = some (S, plen)) (h64 : plen ≠ 64) :
    alloc_link_step out link = Except.error (Err.invalidPfxLen link.name plen) := by
  unfold alloc_link_step
  rw [hsub]
  dsimp only
  rw [if_neg hne, hp]
  dsimp only
  rw [if_pos h64]

theorem alloc_link_step_err_count (out : LDict) (link : Link) (str : String) (S : Nat)
    (hsub : link.subnet_v6 = some str) (hne : str ≠ "")
    (hp : parseIPv6Net str = some (S, 64)) (hcount : link.endpoints.length ≠ 2) :
    alloc_link_step out link = Except.error (Err.endpointCount link.name) := by
  unfold alloc_link_step
  rw [hsub]
  dsimp only
  rw [if_neg hne, hp]
  dsimp only
  rw [if_neg (by omega)]
  rcases heps : link.endpoints with _ | ⟨e0, _ | ⟨e1, _ | ⟨e2, rest⟩⟩⟩
  · rfl
  · rfl
  · exact absurd (by rw [heps]; rfl) hcount
  · rfl

theorem alloc_link_step_err_dup (out : LDict) (link : Link) (str : String) (S : Nat)
    (e0 e1 : Endpoint)
    (hsub : link.subnet_v6 = some str) (hne : str ≠ "")
    (hp : parseIPv6Net str = some (S, 64)) (heps : link.endpoints = [e0, e1])
    (hdup : (out.lookup (e0.router, e0.iface)).isSome = true) :
    alloc_link_step out link = Except.error (Err.dupIface e0.router e0.iface) := by
  unfold alloc_link_step
  rw [hsub]
  dsimp only
  rw [if_neg hne, hp]
  dsimp only
  rw [if_neg (by omega), heps]
  dsimp only
  rw [hdup]
  rfl

theorem dinsertL_keys (k : String × String) (v : String) : ∀ (d : LDict),
    (dinsertL d k v).map Prod.fst =
      if k ∈ d.map Prod.fst then d.map Prod.fst else d.map Prod.fst ++ [k] := by
  intro d
  induction d with
  | nil => simp [dinsertL]
  | cons p rest ih =>
    obtain ⟨k0, v0⟩ := p
    by_cases h0 : k0 = k
    · subst h0; simp [dinsertL]
    · by_cases hm : k ∈ rest.map Prod.fst
      · simp [dinsertL, h0, ih, hm, Ne.symm h0]
      · simp [dinsertL, h0, ih, hm, Ne.symm h0]

theorem dinsertL_keys_nodup (k : String × String) (v : String) (d : LDict)
    (h : (d.map Prod.fst).Nodup) : ((dinsertL d k v).map Prod.fst).Nodup := by
  rw [dinsertL_keys]
  by_cases hm : k ∈ d.map Prod.fst
  · rw [if_pos hm]; exact h
  · rw [if_neg hm]
    rw [List.nodup_append]
    refine ⟨h, List.nodup_singleton k, ?_⟩
    intro a ha hk
    rw [List.mem_singleton.mp hk] at ha
    exact hm ha

theorem alloc_link_step_keys_nodup (out out' : LDict) (link : Link)
    (h : alloc_link_step out link = Except.ok out')
    (hnd : (out.map Prod.fst).Nodup) : (out'.map Prod.fst).Nodup := by
  unfold alloc_link_step at h
  cases hsub : link.subnet_v6 with
  | none => rw [hsub] at h; exact absurd h (by simp)
  | some str =>
    rw [hsub] at h
    dsimp only at h
    by_cases hne : str = ""
    · rw [if_pos hne] at h; exact absurd h (by simp)
    · rw [if_neg hne] at h
      cases hp : parseIPv6Net str with
      | none => rw [hp] at h; exact absurd h (by simp)
      | some p =>
        obtain ⟨S, plen⟩ := p
        rw [hp] at h
        dsimp only at h
        by_cases h64 : plen ≠ 64
        · rw [if_pos h64] at h; exact absurd h (by simp)
        · rw [if_neg h64] at h
          rcases heps : link.endpoints with _ | ⟨e0, _ | ⟨e1, _ | ⟨e2, rest⟩⟩⟩
          · rw [heps] at h; exact absurd h (by simp)
          · rw [heps] at h; exact absurd h (by simp)
          · rw [heps] at h
            dsimp only at h
            cases h0 : (out.lookup (e0.router, e0.iface)).isSome with
            | true => rw [h0] at h; exact absurd h (by simp)
            | false =>
              rw [h0, if_neg (by simp)] at h
              cases h1 : (out.lookup (e1.router, e1.iface)).isSome with
              | true => rw [h1] at h; exact absurd h (by simp)
              | false =>
                rw [h1, if_neg (by simp)] at h
                cases h
                exact dinsertL_keys_nodup _ _ _ (dinsertL_keys_nodup _ _ _ hnd)
          · rw [heps] at h; exact absurd h (by simp)

theorem link_fold_keys_nodup : ∀ (links : List Link) (out out' : LDict),
    links.foldlM alloc_link_step out = Except.ok out' →
    (out.map Prod.fst).Nodup → (out'.map Prod.fst).Nodup := by
  intro links
  induction links with
  | nil => intro out out' h hnd; rw [List.foldlM_nil] at h; cases h; exact hnd
  | cons l ls ih =>
    intro out out' h hnd
    obtain ⟨mid, h1, h2⟩ := except_cons_ok h
    exact ih mid out' h2 (alloc_link_step_keys_nodup out mid l h1 hnd)

/-- C7 (amended): link-IP allocation.  In a successful run every link with
a /64 subnet and two endpoints naming distinct (router, interface) pairs
has endpoint 0 mapped to subnet+1/64 and endpoint 1 to subnet+2/64 in the
final table (without the distinctness proviso this fails: both endpoints
naming the identical pair end mapped to subnet+2/64, see the
counterexample).  A subnet that is not /64 aborts with InvalidPrefixLength, an
endpoint count other than two with EndpointCountMismatch, a pair already
claimed by an earlier link with DuplicateInterfaceUse; and the final table
maps every pair to at most one address. -/
theorem c7_link_allocation :
    (∀ intent out pre post link str S e0 e1,
      intent.links = pre ++ link :: post →
      allocate_link_ips intent = Except.ok out →
      link.subnet_v6 = some str →
      parseIPv6Net str = some (S, 64) →
      link.endpoints = [e0, e1] →
      (e0.router, e0.iface) ≠ (e1.router, e1.iface) →
      out.lookup (e0.router, e0.iface) = some (renderIPv6 (S + 1) ++ "/64") ∧
      out.lookup (e1.router, e1.iface) = some (renderIPv6 (S + 2) ++ "/64")) ∧
    (∀ intent pre post link str S plen out0,
      intent.links = pre ++ link :: post →
      pre.foldlM alloc_link_step [] = Except.ok out0 →
      link.subnet_v6 = some str → str ≠ "" →
      parseIPv6Net str = some (S, plen) → plen ≠ 64 →
      allocate_link_ips intent = Except.error (Err.invalidPfxLen link.name plen)) ∧
    (∀ intent pre post link str S out0,
      intent.links = pre ++ link :: post →
      pre.foldlM alloc_link_step [] = Except.ok out0 →
      link.subnet_v6 = some str → str ≠ "" →
      parseIPv6Net str = some (S, 64) → link.endpoints.length ≠ 2 →
      allocate_link_ips intent = Except.error (Err.endpointCount link.name)) ∧
    (∀ intent pre post link str S e0 e1 out0,
      intent.links = pre ++ link :: post →
      pre.foldlM alloc_link_step [] = Except.ok out0 →
      link.subnet_v6 = some str → str ≠ "" →
      parseIPv6Net str = some (S, 64) → link.endpoints = [e0, e1] →
      (out0.lookup (e0.router, e0.iface)).isSome = true →
      allocate_link_ips intent = Except.error (Err.dupIface e0.router e0.iface)) ∧
    (∀ intent out, allocate_link_ips intent = Except.ok out →
      (out.map Prod.fst).Nodup) := by
  refine ⟨?_, ?_, ?_, ?_, ?_⟩
  · intro intent out pre post link str S e0 e1 hsplit hok hsub hparse heps hdist
    unfold allocate_link_ips at hok
    rw [hsplit] at hok
    obtain ⟨out0, h1, h2⟩ := except_ok_of_append_ok hok
    obtain ⟨out1, h3, h4⟩ := except_cons_ok h2
    obtain ⟨hp0, hp1, hout1⟩ := alloc_link_step_ok_inv out0 out1 link str S e0 e1 hsub hparse heps h3
    subst hout1
    have hd : (e1.router, e1.iface) ≠ (e0.router, e0.iface) := Ne.symm hdist
    constructor
    · refine link_fold_preserves_some post _ out _ _ h4 ?_
      rw [dinsertL_lookup_other _ _ _ _ hdist, dinsertL_lookup_self]
    · refine link_fold_preserves_some post _ out _ _ h4 ?_
      rw [dinsertL_lookup_self]
  · intro intent pre post link str S plen out0 hsplit hpre hsub hne hp h64
    unfold allocate_link_ips
    rw [hsplit, List.foldlM_append, hpre, exBindOk, List.foldlM_cons,
      alloc_link_step_err_pfx out0 link str S plen hsub hne hp h64, exBindErr]
  · intro intent pre post link str S out0 hsplit hpre hsub hne hp hcount
    unfold allocate_link_ips
    rw [hsplit, List.foldlM_append, hpre, exBindOk, List.foldlM_cons,
      alloc_link_step_err_count out0 link str S hsub hne hp hcount, exBindErr]
  · intro intent pre post link str S e0 e1 out0 hsplit hpre hsub hne hp heps hdup
    unfold allocate_link_ips
    rw [hsplit, List.foldlM_append, hpre, exBindOk, List.foldlM_cons,
      alloc_link_step_err_dup out0 link str S e0 e1 hsub hne hp heps hdup, exBindErr]
  · intro intent out hok
    exact link_fold_keys_nodup intent.links [] out hok (by simp)

/-- C7 counterexample: in c7doc the single link declares the identical
(router, interface) pair on both endpoints; allocation succeeds and the
final table maps the pair to subnet+2/64, not the subnet+1/64 the claim
assigns to endpoint 0. -/
theorem c7_counterexample :
    allocate_link_ips c7doc = Except.ok [(("R1", "f0"), "2001:12::2/64")] ∧
    (parseIPv6Net "2001:12::/64").map (fun p => renderIPv6 (p.1 + 1) ++ "/64") =
      some "2001:12::1/64" ∧
    ("2001:12::2/64" : String) ≠ "2001:12::1/64" :=
  ⟨rfl, rfl, by decide⟩

theorem c7_witness :
    (exLi.lookup ("R1", "f0") =
      some (renderIPv6 (42540508444386655338040395001726238720 + 1) ++ "/64") ∧
     exLi.lookup ("R2", "f0") =
      some (renderIPv6 (42540508444386655338040395001726238720 + 2) ++ "/64")) ∧
    allocate_link_ips badSubnetDoc = Except.error (Err.invalidPfxLen "L1" 60) ∧
    allocate_link_ips oneEndpointDoc = Except.error (Err.endpointCount "L1") ∧
    allocate_link_ips dupIfaceDoc = Except.error (Err.dupIface "R1" "f0") ∧
    (exLi.map Prod.fst).Nodup :=
  ⟨c7_link_allocation.1 exIntent exLi [] [exL2] exL1 "2001:100:1::/64"
      42540508444386655338040395001726238720 ⟨"R1", "f0"⟩ ⟨"R2", "f0"⟩
      rfl rfl rfl (by decide) rfl (by decide),
   c7_link_allocation.2.1 badSubnetDoc [] []
      ⟨"L1", some "intra_as", some "2001:d::/60", [⟨"R1", "f0"⟩, ⟨"R2", "f0"⟩], some 1, none, none⟩
      "2001:d::/60" 42540489191941955445986745141371600896 60 []
      rfl rfl rfl (by decide) (by decide) (by decide),
   c7_link_allocation.2.2.1 oneEndpointDoc [] []
      ⟨"L1", some "intra_as", some "2001:c::/64", [⟨"R1", "f0"⟩], some 1, none, none⟩
      "2001:c::/64" 42540489112713792931722407547827650560 [] rfl rfl rfl (by decide) (by decide) (by decide),
   c7_link_allocation.2.2.2.1 dupIfaceDoc
      [⟨"LA", some "intra_as", some "2001:a::/64", [⟨"R1", "f0"⟩, ⟨"R2", "f0"⟩], some 1, none, none⟩]
      []
      ⟨"LB", some "intra_as", some "2001:b::/64", [⟨"R1", "f0"⟩, ⟨"R3", "f1"⟩], some 1, none, none⟩
      "2001:b::/64" 42540489033485630417458069954283700224 ⟨"R1", "f0"⟩ ⟨"R3", "f1"⟩
      [(("R1", "f0"), "2001:a::1/64"), (("R2", "f0"), "2001:a::2/64")]
      rfl rfl rfl (by decide) (by decide) rfl rfl,
   c7_link_allocation.2.2.2.2 exIntent exLi rfl⟩

/-- C10: a link whose two endpoints declare the identical
(router, interface) pair — unused so far — raises no error, since both
duplicate-use checks run against the table before either assignment; the
endpoint-1 assignment of subnet+2/64 silently overwrites the endpoint-0
assignment of subnet+1/64, and a successful remainder of the run keeps
the pair mapped to subnet+2/64. -/
theorem c10_same_pair_overwrite (out0 : LDict) (link : Link) (str : String) (S : Nat)
    (e : Endpoint)
    (hsub : link.subnet_v6 = some str)
    (hparse : parseIPv6Net str = some (S, 64))
    (heps : link.endpoints = [e, e])
    (hfree : out0.lookup (e.router, e.iface) = none) :
    ∃ out1, alloc_link_step out0 link = Except.ok out1 ∧
      out1.lookup (e.router, e.iface) = some (renderIPv6 (S + 2) ++ "/64") ∧
      ∀ (post : List Link) (out : LDict),
        List.foldlM alloc_link_step out1 post = Except.ok out →
        out.lookup (e.router, e.iface) = some (renderIPv6 (S + 2) ++ "/64") := by
  have hne : str ≠ "" := by
    intro he
    rw [he, (rfl : parseIPv6Net "" = none)] at hparse
    exact Option.noConfusion hparse
  have hstep : alloc_link_step out0 link = Except.ok
      (dinsertL (dinsertL out0 (e.router, e.iface) (renderIPv6 (S + 1) ++ "/64"))
        (e.router, e.iface) (renderIPv6 (S + 2) ++ "/64")) := by
    unfold alloc_link_step
    rw [hsub]
    dsimp only
    rw [if_neg hne, hparse]
    dsimp only
    rw [if_neg (by omega), heps]
    dsimp only
    rw [hfree]
    rfl
  refine ⟨_, hstep, dinsertL_lookup_self _ _ _, ?_⟩
  intro post out h
  exact link_fold_preserves_some post _ out _ _ h (dinsertL_lookup_self _ _ _)

theorem c10_witness :
    ∃ out1, alloc_link_step []
        ⟨"L", some "intra_as", some "2001:12::/64",
          [⟨"R1", "f0"⟩, ⟨"R1", "f0"⟩], some 1, none, none⟩ = Except.ok out1 ∧
      out1.lookup ("R1", "f0") =
        some (renderIPv6 (42540489588082768017308433109091352576 + 2) ++ "/64") ∧
      ∀ (post : List Link) (out : LDict),
        List.foldlM alloc_link_step out1 post = Except.ok out →
        out.lookup ("R1", "f0") =
          some (renderIPv6 (42540489588082768017308433109091352576 + 2) ++ "/64") :=
  c10_same_pair_overwrite []
    ⟨"L", some "intra_as", some "2001:12::/64",
      [⟨"R1", "f0"⟩, ⟨"R1", "f0"⟩], some 1, none, none⟩
    "2001:12::/64" 42540489588082768017308433109091352576 ⟨"R1", "f0"⟩
    rfl (by decide) rfl rfl
theorem forall_not_of_filter_nil {p : Stmt → Bool} : ∀ {l : List Stmt},
    l.filter p = [] → ∀ s ∈ l, p s = false := by
  intro l
  induction l with
  | nil => intro _ s hs; cases hs
  | cons x xs ih =>
    intro h s hs
    rw [List.filter_cons] at h
    by_cases hp : p x = true
    · rw [if_pos hp] at h; cases h
    · rw [if_neg hp] at h
      rcases List.mem_cons.mp hs with rfl | hs
      · simpa using hp
      · exact ih h s hs

theorem foldl_scan_non_openers : ∀ (l : List Stmt) (ok : Bool),
    (∀ s ∈ l, isIfaceOpen s = false) →
    l.foldl scanStep (none, ok) = (none, ok) := by
  intro l
  induction l with
  | nil => intro ok _; rfl
  | cons x xs ih =>
    intro ok h
    rw [List.foldl_cons]
    have hx : isIfaceOpen x = false := h x (List.mem_cons_self x xs)
    have : scanStep (none, ok) x = (none, ok) := by simp [scanStep, hx]
    rw [this]
    exact ih ok (fun s hs => h s (List.mem_cons_of_mem x hs))

theorem foldl_scan_inside : ∀ (l : List Stmt) (seen ok : Bool),
    (∀ s ∈ l, isExitLine s = false) →
    l.foldl scanStep (some seen, ok) = (some (seen || l.any isNoShutdown), ok) := by
  intro l
  induction l with
  | nil => intro seen ok _; simp
  | cons x xs ih =>
    intro seen ok h
    rw [List.foldl_cons]
    have hx : isExitLine x = false := h x (List.mem_cons_self x xs)
    have hstep : scanStep (some seen, ok) x = (some (seen || isNoShutdown x), ok) := by
      simp [scanStep, hx]
    rw [hstep, ih (seen || isNoShutdown x) ok (fun s hs => h s (List.mem_cons_of_mem x hs))]
    simp [List.any_cons, Bool.or_assoc]

theorem foldl_scan_block (i : String) (mid : List Stmt) (ok : Bool)
    (hmid : ∀ s ∈ mid, isExitLine s = false) :
    (Stmt.ifaceHeader i :: (mid ++ [Stmt.noShutdown, Stmt.exitKw, Stmt.bang])).foldl
      scanStep (none, ok) = (none, ok) := by
  rw [List.foldl_cons]
  have h1 : scanStep (none, ok) (Stmt.ifaceHeader i) = (some false, ok) := by
    simp [scanStep, isIfaceOpen]
  rw [h1, List.foldl_append, foldl_scan_inside mid false ok hmid]
  simp [List.foldl_cons, scanStep, isExitLine, isNoShutdown, isIfaceOpen]

theorem foldl_scan_loopback (lb : String) (igpL : List Stmt) (ok : Bool)
    (h : ∀ s ∈ igpL, isExitLine s = false) :
    (loopbackBlock lb igpL).foldl scanStep (none, ok) = (none, ok) := by
  have hsh : loopbackBlock lb igpL =
      Stmt.ifaceHeader "Loopback0" ::
        (([Stmt.noIpAddress, Stmt.ipv6Address lb] ++ igpL) ++
          [Stmt.noShutdown, Stmt.exitKw, Stmt.bang]) := by
    simp [loopbackBlock]
  rw [hsh]
  apply foldl_scan_block
  intro s hs
  rcases List.mem_append.mp hs with hs | hs
  · rcases List.mem_cons.mp hs with rfl | hs
    · rfl
    · rcases List.mem_singleton.mp hs with rfl; rfl
  · exact h s hs

theorem foldl_scan_phys (i ip : String) (igpL : List Stmt) (ok : Bool)
    (h : ∀ s ∈ igpL, isExitLine s = false) :
    (physBlock i ip igpL).foldl scanStep (none, ok) = (none, ok) := by
  have hsh : physBlock i ip igpL =
      Stmt.ifaceHeader i ::
        (([Stmt.noIpAddress, Stmt.ipv6Enable, Stmt.ipv6Address ip] ++ igpL) ++
          [Stmt.noShutdown, Stmt.exitKw, Stmt.bang]) := by
    simp [physBlock]
  rw [hsh]
  apply foldl_scan_block
  intro s hs
  rcases List.mem_append.mp hs with hs | hs
  · rcases List.mem_cons.mp hs with rfl | hs
    · rfl
    · rcases List.mem_cons.mp hs with rfl | hs
      · rfl
      · rcases List.mem_singleton.mp hs with rfl; rfl
  · exact h s hs

theorem igp_iface_no_exit (asdata : ASData) (link : Link) (l : List Stmt)
    (h : igp_iface_lines asdata link = Except.ok l) :
    ∀ s ∈ l, isExitLine s = false ∧ isIfaceOpen s = false := by
  unfold igp_iface_lines at h
  by_cases h1 : asdata.igp.itype = "none"
  · rw [if_pos h1] at h
    cases h
    intro s hs; cases hs
  · rw [if_neg h1] at h
    by_cases h2 : asdata.igp.itype = "ospfv3"
    · rw [if_pos h2] at h
      cases hpid : asdata.igp.process_id with
      | none => rw [hpid] at h; exact absurd h (by simp)
      | some pid =>
        rw [hpid] at h
        cases harea : asdata.igp.area with
        | none => rw [harea] at h; exact absurd h (by simp)
        | some area =>
          rw [harea] at h
          cases h
          intro s hs
          rcases List.mem_append.mp hs with hs | hs
          · rcases List.mem_singleton.mp hs with rfl; exact ⟨rfl, rfl⟩
          · cases hc : link.ospf_cost with
            | none => rw [hc] at hs; cases hs
            | some c =>
              rw [hc] at hs
              rcases List.mem_singleton.mp hs with rfl; exact ⟨rfl, rfl⟩
    · rw [if_neg h2] at h
      by_cases h3 : asdata.igp.itype = "ripng"
      · rw [if_pos h3] at h
        cases h
        intro s hs
        rcases List.mem_singleton.mp hs with rfl; exact ⟨rfl, rfl⟩
      · rw [if_neg h3] at h; exact absurd h (by simp)

theorem igp_global_no_open (asdata : ASData) (rid : String) (l : List Stmt)
    (h : igp_global asdata rid = Except.ok l) :
    ∀ s ∈ l, isIfaceOpen s = false := by
  unfold igp_global at h
  by_cases h1 : asdata.igp.itype = "none"
  · rw [if_pos h1] at h
    cases h
    intro s hs
    rcases List.mem_singleton.mp hs with rfl; rfl
  · rw [if_neg h1] at h
    by_cases h2 : asdata.igp.itype = "ospfv3"
    · rw [if_pos h2] at h
      cases hpid : asdata.igp.process_id with
      | none => rw [hpid] at h; exact absurd h (by simp)
      | some pid =>
        rw [hpid] at h
        cases h
        intro s hs
        rcases List.mem_cons.mp hs with rfl | hs
        · rfl
        · rcases List.mem_cons.mp hs with rfl | hs
          · rfl
          · rcases List.mem_cons.mp hs with rfl | hs
            · rfl
            · rcases List.mem_singleton.mp hs with rfl; rfl
    · rw [if_neg h2] at h
      by_cases h3 : asdata.igp.itype = "ripng"
      · rw [if_pos h3] at h
        cases h
        intro s hs
        rcases List.mem_cons.mp hs with rfl | hs
        · rfl
        · rcases List.mem_cons.mp hs with rfl | hs
          · rfl
          · rcases List.mem_singleton.mp hs with rfl; rfl
      · rw [if_neg h3] at h; exact absurd h (by simp)

theorem build_bgp_no_open (intent : Intent) (rname : String) (lb : Dict) (li : LDict)
    (e1 e2 : List String) (lines : List Stmt)
    (h : build_bgp intent rname lb li e1 e2 = Except.ok lines) :
    ∀ s ∈ lines, isIfaceOpen s = false := by
  unfold build_bgp at h
  cases hb : intent.bgp with
  | none => rw [hb] at h; cases h; intro s hs; cases hs
  | some bgpcfg =>
    rw [hb] at h
    dsimp only at h
    by_cases hreq : bgpcfg.required = false
    · rw [if_pos hreq] at h; cases h; intro s hs; cases hs
    · rw [if_neg hreq] at h
      cases hr : getRouter intent rname with
      | error e => rw [hr, exBindErr] at h; exact absurd h (by simp)
      | ok rdata =>
      rw [hr, exBindOk] at h
      cases hi : ibgp_peers_of intent rname lb bgpcfg rdata.asid with
      | error e => rw [hi, exBindErr] at h; exact absurd h (by simp)
      | ok ibgp =>
      rw [hi, exBindOk] at h
      cases he : ebgp_peers_of intent rname li with
      | error e => rw [he, exBindErr] at h; exact absurd h (by simp)
      | ok ebgp =>
      rw [he, exBindOk] at h
      cases hbo : has_ebgp_neighbor intent rname with
      | error e => rw [hbo, exBindErr] at h; exact absurd h (by simp)
      | ok border =>
      rw [hbo, exBindOk] at h
      cases hl : dget lb rname with
      | error e => rw [hl, exBindErr] at h; exact absurd h (by simp)
      | ok ownLb =>
      rw [hl, exBindOk] at h
      cases hn : inter_subnets_of intent rname with
      | error e => rw [hn, exBindErr] at h; exact absurd h (by simp)
      | ok netB =>
      rw [hn, exBindOk] at h
      cases border with
      | false =>
        rw [if_neg (by simp)] at h
        rw [exPure] at h
        cases h
        refine forall_not_of_filter_nil ?_
        simp only [List.filter_append]
        rw [ibgpNbr_filter_nil _ _ (fun x => ⟨rfl, rfl⟩),
          ebgpNbr_filter_nil _ (fun x a => rfl),
          actI_filter_nil _ _ (fun x => ⟨rfl, rfl, rfl⟩),
          actE_filter_nil _ (fun x => ⟨rfl, rfl⟩),
          filter_map_nil _ _ _ (fun a => rfl)]
        simp [isIfaceOpen, List.filter_cons]
      | true =>
        rw [if_pos rfl] at h
        cases hlbs : loopbacks_for_as intent lb rdata.asid with
        | error e => rw [hlbs, exBindErr] at h; exact absurd h (by simp)
        | ok lbs =>
        rw [hlbs, exBindOk] at h
        cases hrel : get_interas_relationship_for_router intent rname with
        | error e => rw [hrel, exBindErr] at h; exact absurd h (by simp)
        | ok relmap =>
        rw [hrel, exBindOk, exPure] at h
        cases h
        refine forall_not_of_filter_nil ?_
        simp only [List.filter_append]
        rw [ibgpNbr_filter_nil _ _ (fun x => ⟨rfl, rfl⟩),
          ebgpNbr_filter_nil _ (fun x a => rfl),
          actI_filter_nil _ _ (fun x => ⟨rfl, rfl, rfl⟩),
          actE_filter_nil _ (fun x => ⟨rfl, rfl⟩),
          filter_map_nil _ _ _ (fun a => rfl),
          filter_map_nil _ _ _ (fun a => rfl),
          filter_map_nil _ _ _ (fun a => rfl),
          plSelf_filter_nil _ rfl (fun _ _ => rfl) rfl,
          attach_filter_nil _ _ (fun x y => ⟨rfl, rfl⟩)]
        simp [isIfaceOpen, routeMapLines, List.filter_cons]

theorem forall2_mem_right {α β : Type} {R : α → β → Prop} :
    ∀ {l1 : List α} {l2 : List β}, List.Forall₂ R l1 l2 → ∀ b ∈ l2, ∃ a ∈ l1, R a b := by
  intro l1 l2 h
  induction h with
  | nil => intro b hb; cases hb
  | cons hr _ ih =>
    intro b hb
    rcases List.mem_cons.mp hb with rfl | hb
    · exact ⟨_, List.mem_cons_self _ _, hr⟩
    · obtain ⟨a, ha, har⟩ := ih b hb
      exact ⟨a, List.mem_cons_of_mem _ ha, har⟩

theorem phys_block_scan (intent : Intent) (rname : String) (li : LDict) (asdata : ASData)
    (blocks : List (List Stmt))
    (h : phys_blocks_of intent rname li asdata = Except.ok blocks) :
    ∀ b ∈ blocks, ∀ ok : Bool, b.foldl scanStep (none, ok) = (none, ok) := by
  have h2 := mapM_ok_forall2 _ _ _ h
  intro b hb ok
  obtain ⟨link, -, hr⟩ := forall2_mem_right h2 b hb
  cases hep : get_endpoint_for_router link rname with
  | error e => rw [hep, exBindErr] at hr; exact absurd hr (by simp)
  | ok my_ep =>
  rw [hep, exBindOk] at hr
  cases hip : lget li (rname, my_ep.iface) with
  | error e => rw [hip, exBindErr] at hr; exact absurd hr (by simp)
  | ok ip =>
  rw [hip, exBindOk] at hr
  by_cases ht : link.ltype = some "intra_as"
  · rw [if_pos ht] at hr
    cases hig : igp_iface_lines asdata link with
    | error e => rw [hig, exBindErr] at hr; exact absurd hr (by simp)
    | ok igpL =>
      rw [hig, exBindOk] at hr
      simp only [exPure] at hr
      cases hr
      exact foldl_scan_phys _ ip igpL ok
        (fun s hs => (igp_iface_no_exit asdata link igpL hig s hs).1)
  · rw [if_neg ht] at hr
    simp only [pure_bind, exPure] at hr
    cases hr
    exact foldl_scan_phys _ ip [] ok (fun s hs => by cases hs)

theorem foldl_scan_blocks : ∀ (bs : List (List Stmt)),
    (∀ b ∈ bs, ∀ ok : Bool, b.foldl scanStep (none, ok) = (none, ok)) →
    ∀ ok : Bool, bs.flatten.foldl scanStep (none, ok) = (none, ok) := by
  intro bs
  induction bs with
  | nil => intro _ ok; rfl
  | cons b rest ih =>
    intro h ok
    rw [List.flatten_cons, List.foldl_append, h b (List.mem_cons_self b rest) ok]
    exact ih (fun x hx => h x (List.mem_cons_of_mem b hx)) ok

/-- C9: in every successfully generated router configuration, every
interface block — the loopback and every physical interface — is closed
and contains an explicit `no shutdown` directive, unconditionally. -/
theorem c9_no_shutdown_everywhere (intent : Intent) (rname : String) (lb : Dict) (li : LDict)
    (e1 e2 : List String) (lines : List Stmt)
    (h : build_router_config intent rname lb li e1 e2 = Except.ok lines) :
    scanOk lines = true := by
  unfold build_router_config at h
  cases hr : getRouter intent rname with
  | error e => rw [hr, exBindErr] at h; exact absurd h (by simp)
  | ok rdata =>
  rw [hr, exBindOk] at h
  cases ha : getAS intent rdata.asid with
  | error e => rw [ha, exBindErr] at h; exact absurd h (by simp)
  | ok asdata =>
  rw [ha, exBindOk] at h
  cases hl : dget lb rname with
  | error e => rw [hl, exBindErr] at h; exact absurd h (by simp)
  | ok ownLb =>
  rw [hl, exBindOk] at h
  cases hig : igp_iface_lines asdata dummyIntraLink with
  | error e => rw [hig, exBindErr] at h; exact absurd h (by simp)
  | ok lbIgp =>
  rw [hig, exBindOk] at h
  cases hpb : phys_blocks_of intent rname li asdata with
  | error e => rw [hpb, exBindErr] at h; exact absurd h (by simp)
  | ok blocks =>
  rw [hpb, exBindOk] at h
  cases hgg : igp_global asdata rdata.router_id with
  | error e => rw [hgg, exBindErr] at h; exact absurd h (by simp)
  | ok igpG =>
  rw [hgg, exBindOk] at h
  cases hbg : build_bgp intent rname lb li e1 e2 with
  | error e => rw [hbg, exBindErr] at h; exact absurd h (by simp)
  | ok bgpL =>
  rw [hbg, exBindOk, exPure] at h
  cases h
  unfold scanOk
  rw [List.foldl_append, List.foldl_append, List.foldl_append, List.foldl_append,
    List.foldl_append]
  rw [foldl_scan_non_openers _ true (by intro s hs; fin_cases hs <;> rfl)]
  rw [foldl_scan_loopback ownLb lbIgp true
    (fun s hs => (igp_iface_no_exit asdata dummyIntraLink lbIgp hig s hs).1)]
  rw [foldl_scan_blocks blocks (phys_block_scan intent rname li asdata blocks hpb) true]
  rw [foldl_scan_non_openers _ true (igp_global_no_open asdata rdata.router_id igpG hgg)]
  rw [foldl_scan_non_openers _ true (build_bgp_no_open intent rname lb li e1 e2 bgpL hbg)]
  rfl

theorem c9_witness :
    scanOk [Stmt.bang, Stmt.hostname "R1", Stmt.bang, Stmt.noIpDomainLookup,
      Stmt.ipv6UnicastRouting, Stmt.bang, Stmt.ifaceHeader "Loopback0", Stmt.noIpAddress,
      Stmt.ipv6Address "2001:1::1/128", Stmt.noShutdown, Stmt.exitKw, Stmt.bang,
      Stmt.bang, Stmt.bang] = true :=
  c9_no_shutdown_everywhere c2doc "R1" [("R1", "2001:1::1/128"), ("R2", "2001:2::1/128")]
    [] [] [] _ rfl
